import Mathlib

/-!
Verification of the polling/retry/aggregation core of the `ha-serac`
("Serac" / "Better Mountain Weather") Home Assistant integration.

The Python source is shallowly embedded: async functions become pure Lean
functions over explicit inputs, Python exceptions become an explicit
`Except`-style result, machine floats used for delays/measurements become
exact rationals (`ℚ`), and the real-valued great-circle computation of the
config flow becomes a function over `ℝ`.
-/

set_option maxHeartbeats 1600000

namespace Serac

/-! ## Python exception model

`PyExc` models the concrete exception values that flow through
`custom_components/serac/coordinator.py`.  `aiohttp.ClientResponseError`
carries its HTTP status.  `clientConnectionError` stands for any
`aiohttp.ClientError` that is *not* a `ClientResponseError` (e.g. a
connection error); `timeoutError` is `asyncio.TimeoutError`.  The
`*ApiError` constructors are the integration's own wrapper exceptions and
`updateFailed` is Home Assistant's `UpdateFailed`. -/

inductive PyExc where
  | clientResponseError (status : Nat)
  | clientConnectionError
  | timeoutError
  | openMeteoApiError
  | braApiError
  | airQualityApiError
  | valueError
  | keyError
  | indexError
  | typeError
  | updateFailed
  deriving DecidableEq, Repr

/-- The Python exception *classes* that appear in `except` clauses and in the
`retry_on` tuple of `async_retry_with_backoff`. -/
inductive ExcClass where
  | clientError
  | clientResponseError
  | timeoutError
  | exceptionCls
  deriving DecidableEq, Repr

/-- Python `isinstance`, restricted to the classes above.
`aiohttp.ClientResponseError` is a subclass of `aiohttp.ClientError`, and
every exception is an instance of `Exception`. -/
def isInstanceOf : PyExc → ExcClass → Bool
  | .clientResponseError _, .clientError => true
  | .clientResponseError _, .clientResponseError => true
  | .clientConnectionError, .clientError => true
  | .timeoutError, .timeoutError => true
  | _, .exceptionCls => true
  | _, _ => false

/-- Python `except (C1, C2, ...)` clause matching: the exception is caught if
it is an instance of any class of the tuple. -/
def matchesAny (e : PyExc) (classes : List ExcClass) : Bool :=
  classes.any (isInstanceOf e)

/-- The default `retry_on` tuple of `async_retry_with_backoff`:
`(aiohttp.ClientError, asyncio.TimeoutError)`. -/
def defaultRetryOn : List ExcClass := [.clientError, .timeoutError]

/-! ## Retry wrapper (`async_retry_with_backoff`)

The wrapped operation is modelled as `func : Nat → Except PyExc α`, giving
the outcome of its `i`-th invocation (0-based).  The outcome records the
final result, how many times `func` was invoked, and the sequence of
sleep durations (in seconds, as exact rationals) in order. -/

structure RetryOutcome (α : Type) where
  result : Except PyExc α
  calls : Nat
  sleeps : List ℚ

/-- One `for attempt in range(max_retries + 1)` loop of
`async_retry_with_backoff`, with `remaining` iterations left, the index `i`
of the next invocation, and the current `delay`.  The loop body is
translated clause by clause:

* `except retry_on as err` is tried first (so, with the default `retry_on`,
  it also captures every `aiohttp.ClientResponseError`, which is a subclass
  of `aiohttp.ClientError`);
* `except (aiohttp.ClientResponseError,)` then re-raises immediately on
  status 401/403/404 and otherwise retries;
* an exception matching neither clause propagates out of the loop at once.

`await asyncio.sleep(delay)` and `delay *= backoff_factor` run only when
`attempt < max_retries`, i.e. when at least two iterations remain.  When the
loop finishes with every attempt failed, the code raises `last_exception`
(always set at that point); a loop of zero iterations raises `UpdateFailed`. -/
def retryLoop {α : Type} (func : Nat → Except PyExc α) (retryOn : List ExcClass)
    (backoffFactor : ℚ) : Nat → Nat → ℚ → RetryOutcome α
  | 0, i, _ => { result := .error .updateFailed, calls := i, sleeps := [] }
  | remaining + 1, i, delay =>
    match func i with
    | .ok v => { result := .ok v, calls := i + 1, sleeps := [] }
    | .error e =>
      if matchesAny e retryOn then
        if remaining = 0 then
          { result := .error e, calls := i + 1, sleeps := [] }
        else
          let rest := retryLoop func retryOn backoffFactor remaining (i + 1)
            (delay * backoffFactor)
          { rest with sleeps := delay :: rest.sleeps }
      else
        match e with
        | .clientResponseError s =>
          if s = 401 ∨ s = 403 ∨ s = 404 then
            { result := .error (.clientResponseError s), calls := i + 1, sleeps := [] }
          else if remaining = 0 then
            { result := .error (.clientResponseError s), calls := i + 1, sleeps := [] }
          else
            let rest := retryLoop func retryOn backoffFactor remaining (i + 1)
              (delay * backoffFactor)
            { rest with sleeps := delay :: rest.sleeps }
        | _ => { result := .error e, calls := i + 1, sleeps := [] }

/-- `async_retry_with_backoff(func, max_retries=3, initial_delay=1.0,
backoff_factor=2.0, retry_on=(aiohttp.ClientError, asyncio.TimeoutError))`
from `custom_components/serac/coordinator.py`. -/
def async_retry_with_backoff {α : Type} (func : Nat → Except PyExc α)
    (maxRetries : Nat := 3) (initialDelay : ℚ := 1) (backoffFactor : ℚ := 2)
    (retryOn : List ExcClass := defaultRetryOn) : RetryOutcome α :=
  retryLoop func retryOn backoffFactor (maxRetries + 1) 0 initialDelay

/-! ## Python `datetime` model

The clients call `datetime.fromisoformat` on the ISO-8601 strings of the
Open-Meteo JSON payloads and `datetime.isoformat` to serialize them back.
We model naive (offset-free) datetimes — which is what Open-Meteo returns
with `timezone=auto` — and the three string shapes that occur:
`YYYY-MM-DD`, `YYYY-MM-DD*HH:MM` and `YYYY-MM-DD*HH:MM:SS` (Python 3.11+
accepts any single character as the date/time separator).  A string outside
this subset parses to `none`, modelling the `ValueError` that
`datetime.fromisoformat` raises. -/

structure PyDateTime where
  year : Nat
  month : Nat
  day : Nat
  hour : Nat
  minute : Nat
  second : Nat
  deriving DecidableEq, Repr

structure PyDate where
  year : Nat
  month : Nat
  day : Nat
  deriving DecidableEq, Repr

/-- `datetime.date()`. -/
def PyDateTime.dateOf (dt : PyDateTime) : PyDate :=
  { year := dt.year, month := dt.month, day := dt.day }

def isLeapYear (y : Nat) : Bool :=
  (y % 4 = 0 && y % 100 ≠ 0) || y % 400 = 0

def daysInMonth (y m : Nat) : Nat :=
  if m = 2 then (if isLeapYear y then 29 else 28)
  else if m = 4 ∨ m = 6 ∨ m = 9 ∨ m = 11 then 30
  else 31

/-- The field ranges accepted by the `datetime` constructor. -/
def PyDateTime.valid (dt : PyDateTime) : Bool :=
  1 ≤ dt.year && dt.year ≤ 9999 && 1 ≤ dt.month && dt.month ≤ 12 &&
  1 ≤ dt.day && dt.day ≤ daysInMonth dt.year dt.month &&
  dt.hour < 24 && dt.minute < 60 && dt.second < 60

def digitVal (c : Char) : Nat := c.toNat - 48

def digitChar (d : Nat) : Char := Char.ofNat (48 + d)

def parse2 (a b : Char) : Option Nat :=
  if a.isDigit && b.isDigit then some (10 * digitVal a + digitVal b) else none

def parse4 (a b c d : Char) : Option Nat :=
  if a.isDigit && b.isDigit && c.isDigit && d.isDigit then
    some (1000 * digitVal a + 100 * digitVal b + 10 * digitVal c + digitVal d)
  else none

/-- Assemble a datetime, validating the ranges as the `datetime` constructor
does (`ValueError` on violation becomes `none`). -/
def mkDateTime (y m d h n s : Nat) : Option PyDateTime :=
  if (PyDateTime.mk y m d h n s).valid then some ⟨y, m, d, h, n, s⟩ else none

/-- `datetime.fromisoformat`, restricted to the shapes documented above. -/
def fromisoformat (str : String) : Option PyDateTime :=
  match str.data with
  | [y1, y2, y3, y4, c1, m1, m2, c2, d1, d2] =>
    if c1 = '-' ∧ c2 = '-' then do
      mkDateTime (← parse4 y1 y2 y3 y4) (← parse2 m1 m2) (← parse2 d1 d2) 0 0 0
    else none
  | [y1, y2, y3, y4, c1, m1, m2, c2, d1, d2, _sep, h1, h2, c3, n1, n2] =>
    if c1 = '-' ∧ c2 = '-' ∧ c3 = ':' then do
      mkDateTime (← parse4 y1 y2 y3 y4) (← parse2 m1 m2) (← parse2 d1 d2)
        (← parse2 h1 h2) (← parse2 n1 n2) 0
    else none
  | [y1, y2, y3, y4, c1, m1, m2, c2, d1, d2, _sep, h1, h2, c3, n1, n2, c4, s1, s2] =>
    if c1 = '-' ∧ c2 = '-' ∧ c3 = ':' ∧ c4 = ':' then do
      mkDateTime (← parse4 y1 y2 y3 y4) (← parse2 m1 m2) (← parse2 d1 d2)
        (← parse2 h1 h2) (← parse2 n1 n2) (← parse2 s1 s2)
    else none
  | _ => none

/-- `datetime.isoformat()` on a naive datetime with `microsecond = 0`:
always `YYYY-MM-DDTHH:MM:SS`, zero-padded. -/
def isoformat (dt : PyDateTime) : String :=
  ⟨[digitChar (dt.year / 1000), digitChar (dt.year / 100 % 10),
    digitChar (dt.year / 10 % 10), digitChar (dt.year % 10), '-',
    digitChar (dt.month / 10), digitChar (dt.month % 10), '-',
    digitChar (dt.day / 10), digitChar (dt.day % 10), 'T',
    digitChar (dt.hour / 10), digitChar (dt.hour % 10), ':',
    digitChar (dt.minute / 10), digitChar (dt.minute % 10), ':',
    digitChar (dt.second / 10), digitChar (dt.second % 10)]⟩

/-- `date.isoformat()`: `YYYY-MM-DD`. -/
def PyDate.isoformat (d : PyDate) : String :=
  ⟨[digitChar (d.year / 1000), digitChar (d.year / 100 % 10),
    digitChar (d.year / 10 % 10), digitChar (d.year % 10), '-',
    digitChar (d.month / 10), digitChar (d.month % 10), '-',
    digitChar (d.day / 10), digitChar (d.day % 10)]⟩

/-- A single sortable key that orders valid datetimes chronologically
(each mixed-radix factor strictly bounds its field's range). -/
def dtKey (dt : PyDateTime) : Nat :=
  ((((dt.year * 13 + dt.month) * 32 + dt.day) * 24 + dt.hour) * 60 + dt.minute)
    * 60 + dt.second

/-- Chronological strict order on (valid) datetimes. -/
def dtLt (a b : PyDateTime) : Prop := dtKey a < dtKey b

instance : DecidableRel dtLt := fun x y => inferInstanceAs (Decidable (dtKey x < dtKey y))

/-! ## Weather-code-to-condition mapper
(`OpenMeteoClient._map_weather_code`, `custom_components/serac/api/openmeteo_client.py`).
The Lean name drops the leading underscore of the Python name. -/

/-- `OpenMeteoClient._map_weather_code(code)`: the `if/elif` chain over WMO
weather codes, translated branch by branch (`None` becomes `none`). -/
def map_weather_code (code : Option Int) : String :=
  match code with
  | none => "unknown"
  | some c =>
    if c = 0 then "sunny"
    else if c = 1 ∨ c = 2 then "partlycloudy"
    else if c = 3 then "cloudy"
    else if c = 45 ∨ c = 48 then "fog"
    else if c = 51 ∨ c = 53 ∨ c = 55 ∨ c = 56 ∨ c = 57 then "rainy"
    else if c = 61 ∨ c = 63 ∨ c = 65 ∨ c = 66 ∨ c = 67 ∨ c = 80 ∨ c = 81 ∨ c = 82 then
      "pouring"
    else if c = 71 ∨ c = 73 ∨ c = 75 ∨ c = 77 ∨ c = 85 ∨ c = 86 then "snowy"
    else if c = 95 ∨ c = 96 ∨ c = 99 then "lightning-rainy"
    else "partlycloudy"

/-- The fixed closed set of condition labels `_map_weather_code` can return. -/
def conditionLabels : List String :=
  ["sunny", "partlycloudy", "cloudy", "fog", "rainy", "pouring", "snowy",
   "lightning-rainy", "unknown"]

/-- The WMO codes given an explicit branch by `_map_weather_code` (the
documented domain). -/
def documentedCodes : List Int :=
  [0, 1, 2, 3, 45, 48, 51, 53, 55, 56, 57, 61, 63, 65, 66, 67, 80, 81, 82,
   71, 73, 75, 77, 85, 86, 95, 96, 99]

/-! ## Daily forecast builder
(`OpenMeteoClient.async_get_daily_forecast`, `custom_components/serac/api/openmeteo_client.py`).

The HTTP layer is out of scope; the embedding starts from the decoded
`daily` JSON object of the response.  A JSON numeric field is `Option ℚ`
(`none` = JSON `null`); an absent key is `none` at the outer `Option`.
`dict[key]` on an absent key raises `KeyError`, `list[i]` out of range
raises `IndexError`, and a malformed ISO string raises `ValueError`; all of
them are caught by the function's `except Exception` clause, which re-raises
`OpenMeteoApiError`. -/

/-- The `daily` object of the Open-Meteo JSON response, with exactly the
keys `async_get_daily_forecast` reads.  `time` models
`daily.get("time", [])`. -/
structure DailyJson where
  time : List String
  temperature_2m_max : Option (List (Option ℚ))
  temperature_2m_min : Option (List (Option ℚ))
  precipitation_sum : Option (List (Option ℚ))
  weather_code : Option (List (Option Int))
  wind_speed_10m_max : Option (List (Option ℚ))
  wind_gusts_10m_max : Option (List (Option ℚ))
  wind_direction_10m_dominant : Option (List (Option ℚ))
  sunrise : Option (List (Option String))
  sunset : Option (List (Option String))
  sunshine_duration : Option (List (Option ℚ))
  daylight_duration : Option (List (Option ℚ))
  uv_index_max : Option (List (Option ℚ))
  rain_sum : Option (List (Option ℚ))
  showers_sum : Option (List (Option ℚ))
  snowfall_sum : Option (List (Option ℚ))
  precipitation_hours : Option (List (Option ℚ))

/-- `daily[key][i]`: `KeyError` when the key is absent, `IndexError` when
the list is too short. -/
def reqIdx {α : Type} (field : Option (List α)) (i : Nat) : Except PyExc α :=
  match field with
  | none => .error .keyError
  | some l =>
    match l.get? i with
    | none => .error .indexError
    | some v => .ok v

/-- `daily.get(key, [None])[i]`: an absent key falls back to the one-element
list `[None]`, so indices above 0 still raise `IndexError`. -/
def optIdx {α : Type} (field : Option (List (Option α))) (i : Nat) :
    Except PyExc (Option α) :=
  match (field.getD [none]).get? i with
  | none => .error .indexError
  | some v => .ok v

/-- One element of the list `async_get_daily_forecast` returns. -/
structure DailyRecord where
  datetime : String
  temperature : Option ℚ
  templow : Option ℚ
  precipitation_sum : Option ℚ
  precipitation : Option ℚ
  precipitation_probability : Option ℚ
  condition : String
  wind_speed : Option ℚ
  wind_gust_speed : Option ℚ
  wind_bearing : Option ℚ
  sunrise : Option PyDateTime
  sunset : Option PyDateTime
  sunshine_duration : Option ℚ
  daylight_duration : Option ℚ
  uv_index : Option ℚ
  rain_sum : Option ℚ
  showers_sum : Option ℚ
  snowfall_sum : Option ℚ
  precipitation_hours : Option ℚ

/-- `sunrise = datetime.fromisoformat(s) if s else None` (the timezone
normalization that follows does not change a naive datetime's fields other
than attaching UTC, which this model of naive datetimes omits). -/
def parseOptIso (s : Option String) : Except PyExc (Option PyDateTime) :=
  match s with
  | none => pure none
  | some str =>
    match fromisoformat str with
    | none => .error .valueError
    | some dt => pure (some dt)

/-- The body of the `for i in range(len(times))` loop of
`async_get_daily_forecast`, building the record appended at index `i`. -/
def dailyRecordAt (d : DailyJson) (i : Nat) : Except PyExc DailyRecord := do
  let ts ← match d.time.get? i with
    | none => .error .indexError
    | some s => pure s
  let dt ← match fromisoformat ts with
    | none => .error .valueError
    | some dt => pure dt
  let sunriseStr ← optIdx d.sunrise i
  let sunsetStr ← optIdx d.sunset i
  let sunrise ← parseOptIso sunriseStr
  let sunset ← parseOptIso sunsetStr
  let temp ← reqIdx d.temperature_2m_max i
  let templow ← reqIdx d.temperature_2m_min i
  let psum ← reqIdx d.precipitation_sum i
  let wcode ← optIdx d.weather_code i
  let wspeed ← optIdx d.wind_speed_10m_max i
  let wgust ← optIdx d.wind_gusts_10m_max i
  let wbear ← optIdx d.wind_direction_10m_dominant i
  let sunshine ← optIdx d.sunshine_duration i
  let daylight ← optIdx d.daylight_duration i
  let uv ← optIdx d.uv_index_max i
  let rain ← optIdx d.rain_sum i
  let showers ← optIdx d.showers_sum i
  let snow ← optIdx d.snowfall_sum i
  let piph ← optIdx d.precipitation_hours i
  pure
    { datetime := isoformat dt
      temperature := temp
      templow := templow
      precipitation_sum := psum
      precipitation := psum
      precipitation_probability := none
      condition := map_weather_code wcode
      wind_speed := wspeed
      wind_gust_speed := wgust
      wind_bearing := wbear
      sunrise := sunrise
      sunset := sunset
      sunshine_duration := sunshine
      daylight_duration := daylight
      uv_index := uv
      rain_sum := rain
      showers_sum := showers
      snowfall_sum := snow
      precipitation_hours := piph }

/-- `OpenMeteoClient.async_get_daily_forecast`, from the decoded `daily`
object on: the loop appends one record per entry of `times`, any exception
aborts the whole call and surfaces as `OpenMeteoApiError`. -/
def async_get_daily_forecast (d : DailyJson) : Except PyExc (List DailyRecord) :=
  match (List.range d.time.length).mapM (dailyRecordAt d) with
  | .ok recs => .ok recs
  | .error _ => .error .openMeteoApiError

/-! ## Air-quality daily aggregation
(`AirQualityClient._aggregate_to_daily`, `custom_components/serac/api/airquality_client.py`).

`daily_data` is a Python dict, modelled as an insertion-ordered association
list keyed by the `date().isoformat()` string.  The `time_str.replace("Z",
"+00:00")` call is the identity on the offset-free timestamps this model
covers (a timestamp carrying an offset is outside the modelled ISO subset
and parses to an error). -/

/-- One aggregated day: the dict
`{"date": ..., "aqi_max": ..., "pm25_max": ..., "pm10_max": ...}`. -/
structure DailyAq where
  date : String
  aqi_max : Option ℚ
  pm25_max : Option ℚ
  pm10_max : Option ℚ
  deriving DecidableEq, Repr

/-- `if current_max is None or v > current_max:` update the stored max. -/
def aqUpdateMax (cur : Option ℚ) (v : ℚ) : Option ℚ :=
  match cur with
  | none => some v
  | some c => if v > c then some v else some c

/-- `hourly_xxx[i]` guarded by `i < len(hourly_xxx) and hourly_xxx[i] is not
None`: yields the value to fold in, if any. -/
def guardedAt (l : List (Option ℚ)) (i : Nat) : Option ℚ :=
  match l.get? i with
  | some (some v) => some v
  | _ => none

/-- Apply the three max-updates of one loop iteration to one day's entry. -/
def aqStepEntry (aqi pm25 pm10 : List (Option ℚ)) (i : Nat) (e : DailyAq) : DailyAq :=
  let e1 := match guardedAt aqi i with
    | some v => { e with aqi_max := aqUpdateMax e.aqi_max v }
    | none => e
  let e2 := match guardedAt pm25 i with
    | some v => { e1 with pm25_max := aqUpdateMax e1.pm25_max v }
    | none => e1
  match guardedAt pm10 i with
  | some v => { e2 with pm10_max := aqUpdateMax e2.pm10_max v }
  | none => e2

/-- Replace the entry under an existing key of the insertion-ordered dict. -/
def dictUpdate (m : List (String × DailyAq)) (k : String) (f : DailyAq → DailyAq) :
    List (String × DailyAq) :=
  m.map fun p => if p.1 = k then (p.1, f p.2) else p

/-- The `for i, time_str in enumerate(hourly_times)` loop. -/
def aggLoop (aqi pm25 pm10 : List (Option ℚ)) :
    List String → Nat → List (String × DailyAq) →
    Except PyExc (List (String × DailyAq))
  | [], _, acc => .ok acc
  | t :: rest, i, acc => do
    let dt ← match fromisoformat t with
      | none => .error .valueError
      | some dt => pure dt
    let dateKey := dt.dateOf.isoformat
    let acc' :=
      if acc.any (·.1 = dateKey) then acc
      else acc ++ [(dateKey, { date := dateKey, aqi_max := none, pm25_max := none,
                               pm10_max := none })]
    aggLoop aqi pm25 pm10 rest (i + 1) (dictUpdate acc' dateKey (aqStepEntry aqi pm25 pm10 i))

/-- `AirQualityClient._aggregate_to_daily(hourly_times, hourly_aqi,
hourly_pm25, hourly_pm10)`.  The final list comprehension reads the dict
back in ascending (string-sorted) key order. -/
def aggregate_to_daily (hourly_times : List String)
    (hourly_aqi hourly_pm25 hourly_pm10 : List (Option ℚ)) :
    Except PyExc (List DailyAq) :=
  if hourly_times = [] ∨ hourly_aqi = [] then .ok []
  else do
    let m ← aggLoop hourly_aqi hourly_pm25 hourly_pm10 hourly_times 0 []
    let keys := (m.map Prod.fst).mergeSort (fun a b => a ≤ b)
    pure (keys.filterMap fun k => (m.find? (·.1 = k)).map Prod.snd)

/-! ## BRA bulletin XML parsing
(`BraClient._parse_bulletin_xml`, `custom_components/serac/api/bra_client.py`).

The embedding starts from the parsed element tree (`ET.fromstring`); a
malformed document raises `ET.ParseError` before this function's logic is
reached.  `find(".//TAG")` searches the descendants in document order,
`find("TAG")` the direct children, and `findtext` falls back to its default
when the child is absent and to `""` when the child has no text. -/

inductive XmlElem where
  | mk (tag : String) (attrib : List (String × String)) (text : Option String)
      (children : List XmlElem)

def XmlElem.tag : XmlElem → String
  | .mk t _ _ _ => t

def XmlElem.attrib : XmlElem → List (String × String)
  | .mk _ a _ _ => a

def XmlElem.text : XmlElem → Option String
  | .mk _ _ t _ => t

def XmlElem.children : XmlElem → List XmlElem
  | .mk _ _ _ c => c

/-- `element.attrib.get(key)` (`None` when absent). -/
def XmlElem.attrGet (e : XmlElem) (k : String) : Option String :=
  (e.attrib.find? (·.1 = k)).map (·.2)

theorem XmlElem.sizeOf_children_lt (e : XmlElem) : sizeOf e.children < sizeOf e := by
  cases e with
  | mk t a x c =>
    simp only [XmlElem.children]
    simp_arith

/-- First element with the given tag among the trees of the list, in
document (pre-)order. -/
def findDescList (t : String) : List XmlElem → Option XmlElem
  | [] => none
  | c :: rest =>
    if c.tag = t then some c
    else
      match findDescList t c.children with
      | some r => some r
      | none => findDescList t rest
termination_by l => sizeOf l
decreasing_by
  · have := XmlElem.sizeOf_children_lt c
    simp_arith
    omega
  · simp_arith

/-- `element.find(".//TAG")`: first matching descendant in document order
(the element itself is not a candidate). -/
def XmlElem.findDesc (e : XmlElem) (t : String) : Option XmlElem :=
  findDescList t e.children

/-- `element.find("TAG")`: first matching direct child. -/
def XmlElem.findChild (e : XmlElem) (t : String) : Option XmlElem :=
  e.children.find? (·.tag = t)

/-- `element.findtext("TAG", default=d)`. -/
def XmlElem.findtextD (e : XmlElem) (t : String) (d : String) : String :=
  match e.findChild t with
  | none => d
  | some c => c.text.getD ""

/-- `int(s) if s else None`: `None` and `""` are falsy; a non-integer string
raises `ValueError`.  (Python's `int` also tolerates surrounding whitespace,
which the bulletin attributes do not carry.) -/
def pyIntOpt (s : Option String) : Except PyExc (Option Int) :=
  match s with
  | none => pure none
  | some str =>
    if str = "" then pure none
    else
      match str.toInt? with
      | none => .error .valueError
      | some n => pure (some n)

/-- The full-bulletin dictionary built when the risk element is present. -/
structure BulletinData where
  bulletin_date : Option String
  massif_name : Option String
  risk_max : Option Int
  risk_high_altitude : Option Int
  risk_low_altitude : Option Int
  altitude_limit : Option Int
  risk_comment : String
  risk_max_j2 : Option Int
  date_risk_j2 : Option String
  risk_j2_text : String
  risk_j2_comment : String
  accidental_text : String
  natural_text : String
  summary : String
  warning : String

/-- The two dictionary shapes `_parse_bulletin_xml` can return: the
three-key `has_data = False` dict, or the full bulletin with
`has_data = True`. -/
inductive BulletinResult where
  | noData (bulletin_date : Option String) (massif_name : Option String)
  | withData (data : BulletinData)

/-- `BraClient._parse_bulletin_xml` from the parsed root element on; any
exception inside is re-raised as `BraApiError`. -/
def parse_bulletin_xml (root : XmlElem) : Except PyExc BulletinResult :=
  let body : Except PyExc BulletinResult := do
    let bulletinDate := root.attrGet "DATEBULLETIN"
    let massifName := root.attrGet "MASSIF"
    match root.findDesc "CARTOUCHERISQUE" with
    | none => pure (.noData bulletinDate massifName)
    | some cartouche =>
      match cartouche.findChild "RISQUE" with
      | none => pure (.noData bulletinDate massifName)
      | some riskElement => do
        let riskMax ← pyIntOpt (riskElement.attrGet "RISQUEMAXI")
        let riskMaxJ2 ← pyIntOpt (riskElement.attrGet "RISQUEMAXIJ2")
        let risk1 ← pyIntOpt (riskElement.attrGet "RISQUE1")
        let risk2 ← pyIntOpt (riskElement.attrGet "RISQUE2")
        let altitudeLimit ← pyIntOpt (riskElement.attrGet "ALTITUDE")
        let commentaire := (riskElement.attrGet "COMMENTAIRE").getD ""
        pure (.withData
          { bulletin_date := bulletinDate
            massif_name := massifName
            risk_max := riskMax
            risk_high_altitude := risk1
            risk_low_altitude := risk2
            altitude_limit := altitudeLimit
            risk_comment := commentaire.trim
            risk_max_j2 := riskMaxJ2
            date_risk_j2 := riskElement.attrGet "DATE_RISQUE_J2"
            risk_j2_text := (cartouche.findtextD "RisqueJ2" "").trim
            risk_j2_comment := (cartouche.findtextD "CommentaireRisqueJ2" "").trim
            accidental_text := (cartouche.findtextD "ACCIDENTEL" "").trim
            natural_text := (cartouche.findtextD "NATUREL" "").trim
            summary := (cartouche.findtextD "RESUME" "").trim
            warning := (cartouche.findtextD "AVIS" "").trim })
  match body with
  | .ok r => .ok r
  | .error _ => .error .braApiError

/-! ## Weather aggregator
(`AromeCoordinator._async_update_data`, `custom_components/serac/coordinator.py`).

The six retry-wrapped fetches run under `asyncio.gather(...,
return_exceptions=True)`, so the update body receives one settled outcome
per fetch; the embedding takes those outcomes directly.  The payloads are
opaque to the aggregator except for the `daily` list (the records of
`async_get_daily_forecast`) and the elevation lookup, so the embedding is
polymorphic in them; `current : Option C` renders "the fetched dict, or the
`{}` fallback", and likewise `air_quality : Option Aq`.  Failures of the
current-weather or daily-forecast fetch raise `UpdateFailed` (the blanket
`except Exception` then re-wraps that same `UpdateFailed` into another
`UpdateFailed`; either way the update raises and the coordinator keeps the
previous snapshot). -/

/-- The `async_get_additional_data` payload: a dict read back with
`additional_data.get("elevation", 0)`. -/
structure AddlData where
  elevation : Option ℚ

/-- Which critical fetch made the cycle fail. -/
inductive AggError where
  | currentFailed (e : PyExc)
  | dailyFailed (e : PyExc)

/-- The combined `data` dict a successful cycle returns. -/
structure AromeData (C H H6 Aq : Type) where
  current : Option C
  daily_forecast : List DailyRecord
  hourly_forecast : List H
  hourly_6h : List H6
  elevation : ℚ
  air_quality : Option Aq

/-- `AromeCoordinator._async_update_data`, from the settled fetch outcomes
on.  `rAq = none` models a coordinator without an air-quality client. -/
def arome_update_data {C H H6 Aq : Type} (rCur : Except PyExc C)
    (rDaily : Except PyExc (List DailyRecord)) (rHourly : Except PyExc (List H))
    (rH6 : Except PyExc (List H6)) (rAddl : Except PyExc AddlData)
    (rAq : Option (Except PyExc Aq)) : Except AggError (AromeData C H H6 Aq) :=
  let currentWeather : Option C := match rCur with
    | .ok c => some c
    | .error _ => none
  let dailyForecast := match rDaily with
    | .ok l => l
    | .error _ => []
  let hourlyForecast := match rHourly with
    | .ok l => l
    | .error _ => []
  let hourly6h := match rH6 with
    | .ok l => l
    | .error _ => []
  let additionalData : AddlData := match rAddl with
    | .ok a => a
    | .error _ => ⟨none⟩
  let airQualityData : Option Aq := match rAq with
    | some (.ok a) => some a
    | _ => none
  match rCur with
  | .error e => .error (.currentFailed e)
  | .ok _ =>
    match rDaily with
    | .error e => .error (.dailyFailed e)
    | .ok _ =>
      .ok
        { current := currentWeather
          daily_forecast := dailyForecast
          hourly_forecast := hourlyForecast
          hourly_6h := hourly6h
          elevation := additionalData.elevation.getD 0
          air_quality := airQualityData }

/-! ## Today's max wind reducers
(`OpenMeteoClient.get_today_max_wind`,
`custom_components/better_mountain_weather/api/openmeteo_client.py`, and
`AromeClient.get_today_max_wind`,
`custom_components/better_mountain_weather/api/arome_client.py`).

`datetime.now().date()` is real time, passed in as the `today` argument.
In the Open-Meteo variant each entry's `"datetime"` may be a `datetime`
object or an ISO string, and both a missing key and a present `None` wind
value fall to `0` via `forecast.get(key) or 0` (one `Option ℚ` covers
both).  In the AROME variant the `"datetime"` is always a string and wind
values are read with `forecast.get(key, 0)`, whose default applies only
when the key is *absent*: a key present with value `None` comes through as
`None`, and the enclosing `max(acc, None)` then raises `TypeError` — so the
AROME entry's wind fields are `Option (Option ℚ)` (outer `none` = key
absent, `some none` = key present holding `None`, the shape
`AromeClient.async_get_hourly_forecast` actually emits). -/

/-- A value that is either an ISO string or an already-parsed datetime. -/
inductive StrOrDt where
  | str (s : String)
  | dt (d : PyDateTime)

/-- One hourly forecast entry as consumed by the Open-Meteo variant. -/
structure HourlyEntryOM where
  datetime : StrOrDt
  wind_speed : Option ℚ
  wind_gust_speed : Option ℚ

/-- `forecast["datetime"]`, converted with `fromisoformat` when a string. -/
def entryDateOM (e : HourlyEntryOM) : Except PyExc PyDateTime :=
  match e.datetime with
  | .dt d => pure d
  | .str s =>
    match fromisoformat s with
    | none => .error .valueError
    | some d => pure d

/-- The `for forecast in hourly_forecasts` accumulator loop shared verbatim
by the two `get_today_max_wind` implementations, abstracted over how an
entry yields its datetime and its two `max` arguments; the argument
extraction runs (and may raise) only for entries on `today`, as in the
source, and in wind-before-gust order. -/
def todayMaxWindLoop {ε : Type} (entryDate : ε → Except PyExc PyDateTime)
    (ws gs : ε → Except PyExc ℚ) (today : PyDate) :
    List ε → ℚ → ℚ → Except PyExc (ℚ × ℚ)
  | [], mw, mg => .ok (mw, mg)
  | e :: rest, mw, mg =>
    match entryDate e with
    | .error exc => .error exc
    | .ok d =>
      if d.dateOf = today then
        match ws e with
        | .error exc => .error exc
        | .ok w =>
          match gs e with
          | .error exc => .error exc
          | .ok g => todayMaxWindLoop entryDate ws gs today rest (max mw w) (max mg g)
      else
        todayMaxWindLoop entryDate ws gs today rest mw mg

/-- `OpenMeteoClient.get_today_max_wind(hourly_forecasts)`: the returned
pair is `(wind_speed_today_max, wind_gust_today_max)`, starting from
`(0, 0)`; `forecast.get(key) or 0` never raises. -/
def get_today_max_wind_openmeteo (today : PyDate) (hourly : List HourlyEntryOM) :
    Except PyExc (ℚ × ℚ) :=
  todayMaxWindLoop entryDateOM (fun e => .ok (e.wind_speed.getD 0))
    (fun e => .ok (e.wind_gust_speed.getD 0)) today hourly 0 0

/-- One hourly forecast entry as consumed by the AROME variant: the wind
fields distinguish an absent key (outer `none`) from a key present with
value `None` (`some none`). -/
structure HourlyEntryAr where
  datetime : String
  wind_speed : Option (Option ℚ)
  wind_gust_speed : Option (Option ℚ)

/-- `datetime.fromisoformat(forecast["datetime"])` of the AROME variant. -/
def entryDateAr (e : HourlyEntryAr) : Except PyExc PyDateTime :=
  match fromisoformat e.datetime with
  | none => .error .valueError
  | some d => pure d

/-- `max(acc, forecast.get(key, 0))` of the AROME variant, as the `max`
argument it contributes: an absent key yields the default `0`, a key
present with `None` reaches `max`, which raises `TypeError`. -/
def aromeWindArg (v : Option (Option ℚ)) : Except PyExc ℚ :=
  match v with
  | none => .ok 0
  | some none => .error .typeError
  | some (some x) => .ok x

/-- `AromeClient.get_today_max_wind(hourly_forecasts)`. -/
def get_today_max_wind_arome (today : PyDate) (hourly : List HourlyEntryAr) :
    Except PyExc (ℚ × ℚ) :=
  todayMaxWindLoop entryDateAr (fun e => aromeWindArg e.wind_speed)
    (fun e => aromeWindArg e.wind_gust_speed) today hourly 0 0

/-! ## Nearest-massif lookup
(`_find_nearest_massif` in `custom_components/serac/config_flow.py`, over the
`MASSIFS` catalog of `custom_components/serac/const.py`).

The catalog coordinates are exact decimals, kept as rationals; the
floating-point trigonometry of `haversine` is modelled over `ℝ` (hence
noncomputable), with `float("inf")` as `none`.  "Distance ≈ 0" is exactly 0
in the real model. -/

/-- `(massif_id, (massif_name, lat, lon))`, in the dict's insertion order. -/
def MASSIFS : List (String × String × ℚ × ℚ) :=
  [("CHABLAIS", "Chablais", 46.3, 6.7),
   ("ARAVIS", "Aravis", 45.9, 6.5),
   ("MONT-BLANC", "Mont-Blanc", 45.9, 6.9),
   ("BAUGES", "Bauges", 45.7, 6.2),
   ("BEAUFORTAIN", "Beaufortain", 45.7, 6.6),
   ("HAUTE-TARENTAISE", "Haute-Tarentaise", 45.5, 6.9),
   ("CHARTREUSE", "Chartreuse", 45.4, 5.8),
   ("BELLEDONNE", "Belledonne", 45.3, 6.0),
   ("MAURIENNE", "Maurienne", 45.2, 6.6),
   ("VANOISE", "Vanoise", 45.4, 6.8),
   ("HAUTE-MAURIENNE", "Haute-Maurienne", 45.2, 6.9),
   ("VERCORS", "Vercors", 45.0, 5.5),
   ("OISANS", "Oisans", 45.0, 6.3),
   ("GRANDES-ROUSSES", "Grandes-Rousses", 45.1, 6.1),
   ("THABOR", "Thabor", 45.1, 6.5),
   ("PELVOUX", "Pelvoux", 44.9, 6.4),
   ("QUEYRAS", "Queyras", 44.7, 6.8),
   ("DEVOLUY", "Dévoluy", 44.7, 5.9),
   ("CHAMPSAUR", "Champsaur", 44.7, 6.2),
   ("EMBRUNAIS-PARPAILLON", "Embrunais-Parpaillon", 44.5, 6.5),
   ("UBAYE", "Ubaye", 44.4, 6.7),
   ("MERCANTOUR", "Mercantour", 44.1, 7.4),
   ("ALPES-AZUR", "Alpes-Azur", 43.9, 7.2),
   ("PAYS-BASQUE", "Pays-Basque", 43.0, -1.0),
   ("ASPE-OSSAU", "Aspe-Ossau", 42.9, -0.4),
   ("HAUTE-BIGORRE", "Haute-Bigorre", 42.8, 0.1),
   ("AURE-LOURON", "Aure-Louron", 42.8, 0.4),
   ("LUCHONNAIS", "Luchonnais", 42.8, 0.6),
   ("COUSERANS", "Couserans", 42.8, 1.0),
   ("HAUTE-ARIEGE", "Haute-Ariège", 42.6, 1.5),
   ("ORLU-ST-BARTHELEMY", "Orlu-St-Barthélémy", 42.6, 1.9),
   ("CAPCIR-PUYMORENS", "Capcir-Puymorens", 42.5, 2.0),
   ("CERDAGNE-CANIGOU", "Cerdagne-Canigou", 42.5, 2.3),
   ("ANDORRE", "Andorre", 42.6, 1.6),
   ("MONTAGNE-BASQUE", "Montagne-Basque", 43.0, -1.2),
   ("BEARN", "Béarn", 42.9, -0.5),
   ("BIGORRE", "Bigorre", 42.9, 0.0),
   ("COMMINGES", "Comminges", 42.8, 0.7),
   ("ARIEGE", "Ariège", 42.7, 1.3),
   ("CORSE", "Corse", 42.2, 9.0)]

/-- `math.radians`. -/
noncomputable def radians (x : ℝ) : ℝ := x * Real.pi / 180

/-- The inner `haversine(lat1, lon1, lat2, lon2)` helper (great-circle
distance in kilometres, earth radius 6371); the Python intermediates
`dlat = rlat2 - rlat1`, `dlon = rlon2 - rlon1`, `a`, `c` are inlined. -/
noncomputable def haversine (lat1 lon1 lat2 lon2 : ℝ) : ℝ :=
  2 * Real.arcsin (Real.sqrt
    (Real.sin ((radians lat2 - radians lat1) / 2) ^ 2 +
     Real.cos (radians lat1) * Real.cos (radians lat2) *
       Real.sin ((radians lon2 - radians lon1) / 2) ^ 2)) * 6371

/-- The loop state: `min_distance` (`none` = `float("inf")`),
`nearest_massif_id`, `nearest_massif_name`. -/
structure NearestState where
  min_distance : Option ℝ
  massif_id : Option String
  massif_name : Option String

/-- One iteration of the `for massif_id, (massif_name, lat, lon)` loop:
replace the state when `distance < min_distance`. -/
noncomputable def stepNearest (qlat qlon : ℚ) (st : NearestState)
    (m : String × String × ℚ × ℚ) : NearestState :=
  letI : ∀ p : Prop, Decidable p := Classical.propDecidable
  let dist := haversine (qlat : ℝ) (qlon : ℝ) (m.2.2.1 : ℝ) (m.2.2.2 : ℝ)
  if (match st.min_distance with
      | none => True
      | some md => dist < md) then
    { min_distance := some dist, massif_id := some m.1, massif_name := some m.2.1 }
  else st

/-- The loop of `_find_nearest_massif`, exposing the full final state. -/
noncomputable def find_nearest_state (qlat qlon : ℚ) : NearestState :=
  MASSIFS.foldl (stepNearest qlat qlon) ⟨none, none, none⟩

/-- `_find_nearest_massif(latitude, longitude)`: the returned
`(massif_id, massif_name)` pair. -/
noncomputable def find_nearest_massif (qlat qlon : ℚ) :
    Option String × Option String :=
  let st := find_nearest_state qlat qlon
  (st.massif_id, st.massif_name)

/-! # Theorems -/

/-- C10.  The air-quality daily aggregation returns the empty list whenever
the hourly AQI list is empty — for every hourly time list and every PM2.5 /
PM10 list, including non-empty ones — because of the
`if not hourly_times or not hourly_aqi: return []` guard, so PM-only hourly
data produces no daily aggregates at all. -/
theorem aggregate_to_daily_empty_aqi (times : List String)
    (pm25 pm10 : List (Option ℚ)) :
    aggregate_to_daily times [] pm25 pm10 = .ok [] := by
  simp [aggregate_to_daily]

/-- C4.  Parsing a bulletin document whose tree has no `CARTOUCHERISQUE`
descendant, or whose `CARTOUCHERISQUE` cartridge has no `RISQUE` child,
returns the `has_data = False` dictionary carrying the root's
`DATEBULLETIN` and `MASSIF` attributes, and raises no exception (the result
is `.ok`). -/
theorem parse_bulletin_xml_no_risk (root : XmlElem)
    (h : root.findDesc "CARTOUCHERISQUE" = none ∨
      ∃ c, root.findDesc "CARTOUCHERISQUE" = some c ∧ c.findChild "RISQUE" = none) :
    parse_bulletin_xml root =
      .ok (.noData (root.attrGet "DATEBULLETIN") (root.attrGet "MASSIF")) := by
  rcases h with h | ⟨c, hc, hr⟩
  · simp [parse_bulletin_xml, h, Pure.pure, Except.pure]
  · simp [parse_bulletin_xml, hc, hr, Pure.pure, Except.pure]

/-- A bulletin document with no `CARTOUCHERISQUE` cartridge at all. -/
def sampleBulletinNoRisk : XmlElem :=
  .mk "BULLETINS_NEIGE_AVALANCHE"
    [("DATEBULLETIN", "20260110160000"), ("MASSIF", "CHABLAIS")] none
    [.mk "DateValidite" [] (some "2026-01-11T16:00:00") []]

theorem parse_bulletin_xml_no_risk_witness :
    parse_bulletin_xml sampleBulletinNoRisk =
      .ok (.noData (some "20260110160000") (some "CHABLAIS")) :=
  parse_bulletin_xml_no_risk sampleBulletinNoRisk
    (Or.inl (by simp [sampleBulletinNoRisk, XmlElem.findDesc, XmlElem.children,
      findDescList, XmlElem.tag]))

/-- C5.  `_map_weather_code` is total and pure by construction (a Lean
function); every documented WMO code maps into the fixed closed label set,
`None` maps to `"unknown"`, and every undocumented code falls to the
explicit default branch `"partlycloudy"` (which is also in the set). -/
theorem map_weather_code_spec :
    (∀ c : Int, c ∈ documentedCodes → map_weather_code (some c) ∈ conditionLabels) ∧
    map_weather_code none = "unknown" ∧
    (∀ c : Int, c ∉ documentedCodes → map_weather_code (some c) = "partlycloudy") ∧
    (∀ c : Option Int, map_weather_code c ∈ conditionLabels) := by
  refine ⟨?_, rfl, ?_, ?_⟩
  · intro c hc
    simp only [documentedCodes, List.mem_cons, List.not_mem_nil, or_false] at hc
    rcases hc with rfl | rfl | rfl | rfl | rfl | rfl | rfl | rfl | rfl | rfl | rfl |
      rfl | rfl | rfl | rfl | rfl | rfl | rfl | rfl | rfl | rfl | rfl | rfl | rfl |
      rfl | rfl | rfl | rfl <;> decide
  · intro c hc
    simp only [documentedCodes, List.mem_cons, List.not_mem_nil, or_false, not_or] at hc
    obtain ⟨n0, n1, n2, n3, n45, n48, n51, n53, n55, n56, n57, n61, n63, n65, n66,
      n67, n80, n81, n82, n71, n73, n75, n77, n85, n86, n95, n96, n99⟩ := hc
    simp [map_weather_code, n0, n1, n2, n3, n45, n48, n51, n53, n55, n56, n57, n61,
      n63, n65, n66, n67, n80, n81, n82, n71, n73, n75, n77, n85, n86, n95, n96, n99]
  · intro c
    match c with
    | none => decide
    | some c =>
      simp only [map_weather_code]
      split_ifs <;> decide

theorem map_weather_code_spec_witness :
    (0 : Int) ∈ documentedCodes ∧ map_weather_code (some 0) ∈ conditionLabels ∧
    (42 : Int) ∉ documentedCodes ∧ map_weather_code (some 42) = "partlycloudy" :=
  ⟨by decide, map_weather_code_spec.1 0 (by decide), by decide,
    map_weather_code_spec.2.2.1 42 (by decide)⟩

/-- Success at the current attempt ends the loop at once. -/
theorem retryLoop_ok {α : Type} (func : Nat → Except PyExc α) (retryOn : List ExcClass)
    (b : ℚ) (n i : Nat) (d : ℚ) (v : α) (h : func i = .ok v) :
    retryLoop func retryOn b (n + 1) i d = ⟨.ok v, i + 1, []⟩ := by
  simp [retryLoop, h]

/-- A failure matching `retry_on`, with at least one attempt left, sleeps
`delay` and retries with `delay * backoff_factor`. -/
theorem retryLoop_retry_step {α : Type} (func : Nat → Except PyExc α)
    (retryOn : List ExcClass) (b : ℚ) (n i : Nat) (d : ℚ) (e : PyExc)
    (h : func i = .error e) (hm : matchesAny e retryOn = true) :
    retryLoop func retryOn b (n + 1 + 1) i d =
      { retryLoop func retryOn b (n + 1) (i + 1) (d * b) with
        sleeps := d :: (retryLoop func retryOn b (n + 1) (i + 1) (d * b)).sleeps } := by
  simp [retryLoop, h, hm]

/-- A failure matching `retry_on` at the final attempt ends the loop and the
last exception is re-raised unchanged. -/
theorem retryLoop_last_fail {α : Type} (func : Nat → Except PyExc α)
    (retryOn : List ExcClass) (b : ℚ) (i : Nat) (d : ℚ) (e : PyExc)
    (h : func i = .error e) (hm : matchesAny e retryOn = true) :
    retryLoop func retryOn b (0 + 1) i d = ⟨.error e, i + 1, []⟩ := by
  simp [retryLoop, h, hm]

/-- C3.  An operation that fails with failures of retryable kinds on its
first two invocations and succeeds on the third, run under the wrapper with
`max_retries = 3`, returns the success value, was invoked exactly 3 times
(of the up to `max_retries + 1 = 4` the wrapper allows), and slept
`initial_delay * backoff_factor^attempt` before each retry (attempt
numbering from 0, i.e. `d` then `d * f`). -/
theorem retry_two_failures_then_success {α : Type} (func : Nat → Except PyExc α)
    (v : α) (e0 e1 : PyExc) (d f : ℚ) (retryOn : List ExcClass)
    (h0 : func 0 = .error e0) (h1 : func 1 = .error e1) (h2 : func 2 = .ok v)
    (hr0 : matchesAny e0 retryOn = true) (hr1 : matchesAny e1 retryOn = true) :
    async_retry_with_backoff func 3 d f retryOn =
      { result := .ok v, calls := 3, sleeps := [d, d * f] } := by
  show retryLoop func retryOn f (1 + 1 + 1 + 1) 0 d = _
  rw [retryLoop_retry_step func retryOn f _ 0 d e0 h0 hr0]
  rw [retryLoop_retry_step func retryOn f _ 1 (d * f) e1 h1 hr1]
  rw [retryLoop_ok func retryOn f _ 2 (d * f * f) v h2]

theorem retry_two_failures_then_success_witness :
    (fun i => if i < 2 then (.error .timeoutError : Except PyExc Nat) else .ok 42) 0 =
        .error .timeoutError ∧
    async_retry_with_backoff
        (fun i => if i < 2 then (.error .timeoutError : Except PyExc Nat) else .ok 42)
        3 1 2 defaultRetryOn =
      { result := .ok 42, calls := 3, sleeps := [1, 1 * 2] } :=
  ⟨rfl, retry_two_failures_then_success _ 42 .timeoutError .timeoutError 1 2
    defaultRetryOn rfl rfl rfl (by decide) (by decide)⟩

/-- A failure is absorbed by one of the two `except` clauses (rather than
propagating out of the loop) exactly when it matches the caller's
`retry_on` tuple, or is an `aiohttp.ClientResponseError` whose status is
not 401/403/404. -/
def retryHandled (e : PyExc) (retryOn : List ExcClass) : Prop :=
  matchesAny e retryOn = true ∨
    ∃ s, e = .clientResponseError s ∧ ¬(s = 401 ∨ s = 403 ∨ s = 404)

/-- A non-auth `ClientResponseError` missed by `retry_on`, with at least
one attempt left, is retried by the second `except` clause with the same
sleep/backoff behaviour. -/
theorem retryLoop_retry_step_cre {α : Type} (func : Nat → Except PyExc α)
    (retryOn : List ExcClass) (b : ℚ) (n i : Nat) (d : ℚ) (s : Nat)
    (h : func i = .error (.clientResponseError s))
    (hm : matchesAny (.clientResponseError s) retryOn = false)
    (hns : ¬(s = 401 ∨ s = 403 ∨ s = 404)) :
    retryLoop func retryOn b (n + 1 + 1) i d =
      { retryLoop func retryOn b (n + 1) (i + 1) (d * b) with
        sleeps := d :: (retryLoop func retryOn b (n + 1) (i + 1) (d * b)).sleeps } := by
  simp [retryLoop, h, hm, hns]

/-- A `ClientResponseError` missed by `retry_on` at the final attempt ends
the loop with that same exception (whether through the auth check or
through exhaustion). -/
theorem retryLoop_last_fail_cre {α : Type} (func : Nat → Except PyExc α)
    (retryOn : List ExcClass) (b : ℚ) (i : Nat) (d : ℚ) (s : Nat)
    (h : func i = .error (.clientResponseError s))
    (hm : matchesAny (.clientResponseError s) retryOn = false) :
    retryLoop func retryOn b (0 + 1) i d =
      ⟨.error (.clientResponseError s), i + 1, []⟩ := by
  simp only [retryLoop, h, hm, Bool.false_eq_true, if_false]
  split_ifs <;> rfl

/-- The loop invariant behind C9: if every remaining invocation fails with
an absorbed failure, the loop performs them all and ends with the last
exception. -/
theorem retryLoop_exhaust {α : Type} (func : Nat → Except PyExc α)
    (retryOn : List ExcClass) (b : ℚ) (errs : Nat → PyExc) :
    ∀ (n i : Nat) (d : ℚ),
      (∀ j, i ≤ j → j ≤ i + n → func j = .error (errs j)) →
      (∀ j, i ≤ j → j ≤ i + n → retryHandled (errs j) retryOn) →
      (retryLoop func retryOn b (n + 1) i d).result = .error (errs (i + n)) ∧
        (retryLoop func retryOn b (n + 1) i d).calls = i + n + 1 := by
  intro n
  induction n with
  | zero =>
    intro i d hfail hhandle
    have hf : func i = .error (errs i) := hfail i le_rfl (by omega)
    by_cases hmm : matchesAny (errs i) retryOn = true
    · rw [show i + 0 = i from rfl, retryLoop_last_fail func retryOn b i d (errs i) hf hmm]
      exact ⟨rfl, rfl⟩
    · have hmf : matchesAny (errs i) retryOn = false := by
        simpa using hmm
      rcases hhandle i le_rfl (by omega) with hm | ⟨s, hs, _⟩
      · exact absurd hm hmm
      · rw [hs] at hf hmf
        rw [show i + 0 = i from rfl, hs,
          retryLoop_last_fail_cre func retryOn b i d s hf hmf]
        exact ⟨rfl, rfl⟩
  | succ n ih =>
    intro i d hfail hhandle
    have hf : func i = .error (errs i) := hfail i le_rfl (by omega)
    have hrest :=
      ih (i + 1) (d * b) (fun j h1 h2 => hfail j (by omega) (by omega))
        (fun j h1 h2 => hhandle j (by omega) (by omega))
    have hidx : i + 1 + n = i + (n + 1) := by omega
    rw [hidx] at hrest
    by_cases hmm : matchesAny (errs i) retryOn = true
    · rw [retryLoop_retry_step func retryOn b n i d (errs i) hf hmm]
      exact ⟨hrest.1, hrest.2⟩
    · have hmf : matchesAny (errs i) retryOn = false := by
        simpa using hmm
      rcases hhandle i le_rfl (by omega) with hm | ⟨s, hs, hns⟩
      · exact absurd hm hmm
      · rw [hs] at hf hmf
        rw [retryLoop_retry_step_cre func retryOn b n i d s hf hmf hns]
        exact ⟨hrest.1, hrest.2⟩

/-- C9.  When the wrapper exhausts all its attempts — every one of the
`max_retries + 1` invocations failed with a failure absorbed by the retry
clauses — the last encountered failure propagates unchanged: the result is
`.error` of exactly the exception value of the final invocation, with no
wrapping. -/
theorem retry_exhaustion_propagates_last {α : Type} (func : Nat → Except PyExc α)
    (maxRetries : Nat) (d f : ℚ) (retryOn : List ExcClass) (errs : Nat → PyExc)
    (hfail : ∀ i ≤ maxRetries, func i = .error (errs i))
    (hhandle : ∀ i ≤ maxRetries, retryHandled (errs i) retryOn) :
    (async_retry_with_backoff func maxRetries d f retryOn).result =
        .error (errs maxRetries) ∧
      (async_retry_with_backoff func maxRetries d f retryOn).calls =
        maxRetries + 1 := by
  have h := retryLoop_exhaust func retryOn f errs maxRetries 0 d
    (fun j h1 h2 => hfail j (by omega)) (fun j h1 h2 => hhandle j (by omega))
  simpa [async_retry_with_backoff] using h

theorem retry_exhaustion_propagates_last_witness :
    (∀ i ≤ 2, (fun _ => (.error .timeoutError : Except PyExc Nat)) i =
      .error ((fun _ => PyExc.timeoutError) i)) ∧
    (async_retry_with_backoff (fun _ => (.error .timeoutError : Except PyExc Nat))
        2 1 2 defaultRetryOn).result = .error .timeoutError ∧
    (async_retry_with_backoff (fun _ => (.error .timeoutError : Except PyExc Nat))
        2 1 2 defaultRetryOn).calls = 3 :=
  ⟨fun _ _ => rfl,
    retry_exhaustion_propagates_last (fun _ => .error .timeoutError) 2 1 2
      defaultRetryOn (fun _ => .timeoutError) (fun _ _ => rfl)
      (fun _ _ => Or.inl rfl)⟩

/-- C1 (code bug).  An operation that always fails with
`aiohttp.ClientResponseError(status=401)`, run under the wrapper with the
default `retry_on = (aiohttp.ClientError, asyncio.TimeoutError)` and
`max_retries = 2` (the configuration of the repository's own
`test_no_retry_on_auth_error`), is invoked 3 times with backoff sleeps of
1s and 2s before the 401 is finally re-raised — not invoked exactly once
with immediate propagation, as the claim, the code's own comment and the
repository's test state.  The cause: `except retry_on` is tried first and
`ClientResponseError` is a subclass of `aiohttp.ClientError`, so the
401/403/404 check in the second `except` clause is unreachable under the
default `retry_on`. -/
theorem retry_auth_error_is_retried :
    async_retry_with_backoff (fun _ => (.error (.clientResponseError 401) :
        Except PyExc Nat)) 2 1 2 defaultRetryOn =
      { result := .error (.clientResponseError 401), calls := 3, sleeps := [1, 2] } := by
  show retryLoop _ defaultRetryOn 2 (1 + 1 + 1) 0 1 = _
  rw [retryLoop_retry_step _ defaultRetryOn 2 _ 0 1 (.clientResponseError 401) rfl
    (by decide)]
  rw [retryLoop_retry_step _ defaultRetryOn 2 _ 1 (1 * 2) (.clientResponseError 401) rfl
    (by decide)]
  rw [retryLoop_last_fail _ defaultRetryOn 2 2 (1 * 2 * 2) (.clientResponseError 401) rfl
    (by decide)]
  norm_num

/-- C2.  Classification of one aggregator poll cycle: when the
current-weather and daily-forecast fetches succeed, the cycle succeeds no
matter how the other fetches ended, with each failed degradable fragment
replaced by its empty/default value (`{}`/`[]`, elevation `0`, empty air
quality); when the current-weather or the daily-forecast fetch failed, the
update raises (`UpdateFailed`), so no new snapshot is produced and the
host's `DataUpdateCoordinator` retains the previous one. -/
theorem arome_update_classification {C H H6 Aq : Type} (rCur : Except PyExc C)
    (rDaily : Except PyExc (List DailyRecord)) (rHourly : Except PyExc (List H))
    (rH6 : Except PyExc (List H6)) (rAddl : Except PyExc AddlData)
    (rAq : Option (Except PyExc Aq)) :
    (∀ c dl, rCur = .ok c → rDaily = .ok dl →
      ∃ snap, arome_update_data rCur rDaily rHourly rH6 rAddl rAq = .ok snap ∧
        snap.current = some c ∧ snap.daily_forecast = dl ∧
        (∀ e, rHourly = .error e → snap.hourly_forecast = []) ∧
        (∀ e, rH6 = .error e → snap.hourly_6h = []) ∧
        (∀ e, rAddl = .error e → snap.elevation = 0) ∧
        (∀ e, rAq = some (.error e) → snap.air_quality = none)) ∧
    (((∃ e, rCur = .error e) ∨ (∃ e, rDaily = .error e)) →
      ∃ err, arome_update_data rCur rDaily rHourly rH6 rAddl rAq = .error err) := by
  constructor
  · intro c dl hc hd
    refine ⟨_, by rw [hc, hd]; rfl, ?_, ?_, ?_, ?_, ?_, ?_⟩
    · simp [arome_update_data, hc]
    · simp [arome_update_data, hd]
    · intro e he
      simp [arome_update_data, he]
    · intro e he
      simp [arome_update_data, he]
    · intro e he
      simp [arome_update_data, he]
    · intro e he
      simp [arome_update_data, he]
  · rintro (⟨e, he⟩ | ⟨e, he⟩)
    · exact ⟨.currentFailed e, by simp [arome_update_data, he]⟩
    · cases hcur : rCur with
      | error ec => exact ⟨.currentFailed ec, by simp [arome_update_data, hcur]⟩
      | ok c => exact ⟨.dailyFailed e, by simp [arome_update_data, hcur, he]⟩

theorem arome_update_classification_witness :
    (Except.ok () : Except PyExc Unit) = .ok () ∧
    ∃ snap, @arome_update_data Unit Unit Unit Unit
        (.ok ()) (.ok []) (.error .openMeteoApiError) (.ok [])
        (.ok ⟨some 5⟩) (some (.error .airQualityApiError)) = .ok snap ∧
      snap.hourly_forecast = [] ∧ snap.air_quality = none := by
  refine ⟨rfl, ?_⟩
  obtain ⟨snap, hok, _, _, hh, _, _, haq⟩ :=
    (@arome_update_classification Unit Unit Unit Unit
      (.ok ()) (.ok []) (.error .openMeteoApiError) (.ok [])
      (.ok ⟨some 5⟩) (some (.error .airQualityApiError))).1 () [] rfl rfl
  exact ⟨snap, hok, hh .openMeteoApiError rfl, haq .airQualityApiError rfl⟩

/-- The invariant of the shared `get_today_max_wind` loop: provided every
entry's datetime resolves and every entry's two `max` arguments resolve,
the loop succeeds, its accumulators only grow, every entry falling on
`today` contributes arguments dominated by the result, and if no entry
falls on `today` the accumulators come back unchanged. -/
theorem todayMaxWindLoop_spec {ε : Type} (entryDate : ε → Except PyExc PyDateTime)
    (ws gs : ε → Except PyExc ℚ) (today : PyDate) :
    ∀ (l : List ε) (mw mg : ℚ),
      (∀ e ∈ l, ∃ dd, entryDate e = .ok dd) →
      (∀ e ∈ l, ∃ w, ws e = .ok w) →
      (∀ e ∈ l, ∃ g, gs e = .ok g) →
      ∃ w g, todayMaxWindLoop entryDate ws gs today l mw mg = .ok (w, g) ∧
        mw ≤ w ∧ mg ≤ g ∧
        (∀ e ∈ l, ∀ dd, entryDate e = .ok dd → dd.dateOf = today →
          (∀ w0, ws e = .ok w0 → w0 ≤ w) ∧ (∀ g0, gs e = .ok g0 → g0 ≤ g)) ∧
        ((∀ e ∈ l, ∀ dd, entryDate e = .ok dd → dd.dateOf ≠ today) →
          w = mw ∧ g = mg) := by
  intro l
  induction l with
  | nil =>
    intro mw mg _ _ _
    exact ⟨mw, mg, rfl, le_rfl, le_rfl, by simp, fun _ => ⟨rfl, rfl⟩⟩
  | cons e rest ih =>
    intro mw mg hp hw hg
    obtain ⟨dd, hdd⟩ := hp e (by simp)
    obtain ⟨w0, hw0⟩ := hw e (by simp)
    obtain ⟨g0, hg0⟩ := hg e (by simp)
    by_cases ht : dd.dateOf = today
    · obtain ⟨w, g, hloop, hmw, hmg, hbound, _⟩ :=
        ih (max mw w0) (max mg g0) (fun x hx => hp x (by simp [hx]))
          (fun x hx => hw x (by simp [hx])) (fun x hx => hg x (by simp [hx]))
      refine ⟨w, g, ?_, ?_, ?_, ?_, ?_⟩
      · simp [todayMaxWindLoop, hdd, ht, hw0, hg0, hloop]
      · exact le_trans (le_max_left _ _) hmw
      · exact le_trans (le_max_left _ _) hmg
      · intro x hx dd' hdd' ht'
        rcases List.mem_cons.mp hx with rfl | hx
        · constructor
          · intro w1 hw1
            rw [hw0] at hw1
            exact Except.ok.inj hw1 ▸ le_trans (le_max_right _ _) hmw
          · intro g1 hg1
            rw [hg0] at hg1
            exact Except.ok.inj hg1 ▸ le_trans (le_max_right _ _) hmg
        · exact hbound x hx dd' hdd' ht'
      · intro hno
        exact absurd ht (hno e (by simp) dd hdd)
    · obtain ⟨w, g, hloop, hmw, hmg, hbound, hnone⟩ :=
        ih mw mg (fun x hx => hp x (by simp [hx]))
          (fun x hx => hw x (by simp [hx])) (fun x hx => hg x (by simp [hx]))
      refine ⟨w, g, ?_, hmw, hmg, ?_, ?_⟩
      · simp [todayMaxWindLoop, hdd, ht, hloop]
      · intro x hx dd' hdd' ht'
        rcases List.mem_cons.mp hx with rfl | hx
        · rw [hdd] at hdd'
          exact absurd (Except.ok.inj hdd' ▸ ht') ht
        · exact hbound x hx dd' hdd' ht'
      · intro hno
        exact hnone fun x hx => hno x (by simp [hx])

/-- The value an AROME wind field contributes when it does not crash `max`:
`0` for an absent key, the number for a present one. -/
def aromeWindVal (v : Option (Option ℚ)) : ℚ :=
  match v with
  | some (some x) => x
  | _ => 0

theorem aromeWindArg_ok {v : Option (Option ℚ)} (h : v ≠ some none) :
    aromeWindArg v = .ok (aromeWindVal v) := by
  match v with
  | none => rfl
  | some none => exact absurd rfl h
  | some (some x) => rfl

/-- C7 (counterexample).  `AromeClient.get_today_max_wind` does *not*
"treat missing values as zero, never `None`-propagating" on every sequence:
an entry on the current date whose `wind_speed` key is present but holds
`None` — the shape `async_get_hourly_forecast` emits when upstream omits
`wind.speed` — reaches `max(0, None)`, which raises `TypeError`, so no
maxima are returned at all. -/
theorem arome_today_max_wind_none_raises :
    get_today_max_wind_arome ⟨2026, 1, 15⟩
        [⟨"2026-01-15T10:00", some none, some (some 20)⟩] = .error .typeError ∧
      ∀ w g : ℚ, get_today_max_wind_arome ⟨2026, 1, 15⟩
        [⟨"2026-01-15T10:00", some none, some (some 20)⟩] ≠ .ok (w, g) := by
  refine ⟨rfl, ?_⟩
  intro w g h
  rw [show get_today_max_wind_arome ⟨2026, 1, 15⟩
    [⟨"2026-01-15T10:00", some none, some (some 20)⟩] = .error .typeError from rfl] at h
  exact Except.noConfusion h

/-- C7 (amended).  For both `get_today_max_wind` implementations of
`better_mountain_weather`: when every entry's datetime resolves — and, for
the AROME variant, no entry carries a wind field that is present but
`None` (such an entry on the current date makes the AROME reducer raise
`TypeError` instead, see the counterexample) — the reducer returns a wind
maximum and a gust maximum dominating the (missing-as-zero) wind and gust
values of every sample whose calendar date is `today`, and returns `(0, 0)`
when no sample falls on `today`. -/
theorem get_today_max_wind_spec (today : PyDate) (lOM : List HourlyEntryOM)
    (lAr : List HourlyEntryAr)
    (hOM : ∀ e ∈ lOM, ∃ dd, entryDateOM e = .ok dd)
    (hAr : ∀ e ∈ lAr, ∃ dd, entryDateAr e = .ok dd)
    (hArW : ∀ e ∈ lAr, e.wind_speed ≠ some none)
    (hArG : ∀ e ∈ lAr, e.wind_gust_speed ≠ some none) :
    (∃ w g, get_today_max_wind_openmeteo today lOM = .ok (w, g) ∧
      (∀ e ∈ lOM, ∀ dd, entryDateOM e = .ok dd → dd.dateOf = today →
        e.wind_speed.getD 0 ≤ w ∧ e.wind_gust_speed.getD 0 ≤ g) ∧
      ((∀ e ∈ lOM, ∀ dd, entryDateOM e = .ok dd → dd.dateOf ≠ today) →
        w = 0 ∧ g = 0)) ∧
    (∃ w g, get_today_max_wind_arome today lAr = .ok (w, g) ∧
      (∀ e ∈ lAr, ∀ dd, entryDateAr e = .ok dd → dd.dateOf = today →
        aromeWindVal e.wind_speed ≤ w ∧ aromeWindVal e.wind_gust_speed ≤ g) ∧
      ((∀ e ∈ lAr, ∀ dd, entryDateAr e = .ok dd → dd.dateOf ≠ today) →
        w = 0 ∧ g = 0)) := by
  constructor
  · obtain ⟨w, g, hloop, _, _, hbound, hnone⟩ :=
      todayMaxWindLoop_spec entryDateOM (fun e => .ok (e.wind_speed.getD 0))
        (fun e => .ok (e.wind_gust_speed.getD 0)) today lOM 0 0 hOM
        (fun e _ => ⟨_, rfl⟩) (fun e _ => ⟨_, rfl⟩)
    refine ⟨w, g, hloop, ?_, hnone⟩
    intro e he dd hdd ht
    exact ⟨(hbound e he dd hdd ht).1 _ rfl, (hbound e he dd hdd ht).2 _ rfl⟩
  · obtain ⟨w, g, hloop, _, _, hbound, hnone⟩ :=
      todayMaxWindLoop_spec entryDateAr (fun e => aromeWindArg e.wind_speed)
        (fun e => aromeWindArg e.wind_gust_speed) today lAr 0 0 hAr
        (fun e he => ⟨_, aromeWindArg_ok (hArW e he)⟩)
        (fun e he => ⟨_, aromeWindArg_ok (hArG e he)⟩)
    refine ⟨w, g, hloop, ?_, hnone⟩
    intro e he dd hdd ht
    exact ⟨(hbound e he dd hdd ht).1 _ (aromeWindArg_ok (hArW e he)),
      (hbound e he dd hdd ht).2 _ (aromeWindArg_ok (hArG e he))⟩

theorem get_today_max_wind_spec_witness :
    (∃ w g, get_today_max_wind_openmeteo ⟨2026, 1, 15⟩
      [⟨.str "2026-01-15T10:00", some 30, some 50⟩,
       ⟨.dt ⟨2026, 1, 16, 2, 0, 0⟩, none, some 20⟩] = .ok (w, g)) ∧
    (∃ w g, get_today_max_wind_arome ⟨2026, 1, 15⟩
      [⟨"2026-01-15T11:00", some (some 12), none⟩] = .ok (w, g)) := by
  obtain ⟨⟨w, g, h, _⟩, ⟨w', g', h', _⟩⟩ :=
    get_today_max_wind_spec ⟨2026, 1, 15⟩
      [⟨.str "2026-01-15T10:00", some 30, some 50⟩,
       ⟨.dt ⟨2026, 1, 16, 2, 0, 0⟩, none, some 20⟩]
      [⟨"2026-01-15T11:00", some (some 12), none⟩]
      (by
        intro e he
        fin_cases he
        · exact ⟨_, rfl⟩
        · exact ⟨_, rfl⟩)
      (by
        intro e he
        fin_cases he
        exact ⟨_, rfl⟩)
      (by
        intro e he
        fin_cases he
        simp)
      (by
        intro e he
        fin_cases he
        simp)
  exact ⟨⟨w, g, h⟩, ⟨w', g', h'⟩⟩

theorem digitChar_isDigit {d : Nat} (h : d < 10) : (digitChar d).isDigit = true := by
  interval_cases d <;> decide

theorem digitVal_digitChar {d : Nat} (h : d < 10) : digitVal (digitChar d) = d := by
  interval_cases d <;> decide

theorem parse4_digits {y : Nat} (h : y ≤ 9999) :
    parse4 (digitChar (y / 1000)) (digitChar (y / 100 % 10))
      (digitChar (y / 10 % 10)) (digitChar (y % 10)) = some y := by
  have h1 : y / 1000 < 10 := by omega
  have h2 : y / 100 % 10 < 10 := by omega
  have h3 : y / 10 % 10 < 10 := by omega
  have h4 : y % 10 < 10 := by omega
  simp only [parse4, digitChar_isDigit h1, digitChar_isDigit h2, digitChar_isDigit h3,
    digitChar_isDigit h4, Bool.and_self, if_true, digitVal_digitChar h1,
    digitVal_digitChar h2, digitVal_digitChar h3, digitVal_digitChar h4,
    Option.some.injEq]
  omega

theorem parse2_digits {m : Nat} (h : m < 100) :
    parse2 (digitChar (m / 10)) (digitChar (m % 10)) = some m := by
  have h1 : m / 10 < 10 := by omega
  have h2 : m % 10 < 10 := by omega
  simp only [parse2, digitChar_isDigit h1, digitChar_isDigit h2, Bool.and_self,
    if_true, digitVal_digitChar h1, digitVal_digitChar h2, Option.some.injEq]
  omega

theorem mkDateTime_valid {y m d h n s : Nat} {dt : PyDateTime}
    (hmk : mkDateTime y m d h n s = some dt) : dt.valid = true := by
  unfold mkDateTime at hmk
  split at hmk
  · cases hmk
    assumption
  · cases hmk

/-- A month's length never exceeds 31 days. -/
theorem daysInMonth_le (y m : Nat) : daysInMonth y m ≤ 31 := by
  unfold daysInMonth
  split_ifs <;> omega

/-- Every datetime `fromisoformat` produces passed the constructor's range
validation. -/
theorem fromisoformat_valid {s : String} {dt : PyDateTime}
    (h : fromisoformat s = some dt) : dt.valid = true := by
  unfold fromisoformat at h
  split at h
  case h_1 =>
    split at h
    · simp only [bind, Option.bind_eq_some] at h
      obtain ⟨_, _, _, _, _, _, h⟩ := h
      exact mkDateTime_valid h
    · cases h
  case h_2 =>
    split at h
    · simp only [bind, Option.bind_eq_some] at h
      obtain ⟨_, _, _, _, _, _, _, _, _, _, h⟩ := h
      exact mkDateTime_valid h
    · cases h
  case h_3 =>
    split at h
    · simp only [bind, Option.bind_eq_some] at h
      obtain ⟨_, _, _, _, _, _, _, _, _, _, _, _, h⟩ := h
      exact mkDateTime_valid h
    · cases h
  case h_4 => cases h

/-- `fromisoformat` is a left inverse of `isoformat` on valid datetimes (the
normalized 19-character form re-parses to the same value). -/
theorem fromisoformat_isoformat {dt : PyDateTime} (h : dt.valid = true) :
    fromisoformat (isoformat dt) = some dt := by
  have hb : 1 ≤ dt.year ∧ dt.year ≤ 9999 ∧ 1 ≤ dt.month ∧ dt.month ≤ 12 ∧
      1 ≤ dt.day ∧ dt.day ≤ daysInMonth dt.year dt.month ∧ dt.hour < 24 ∧
      dt.minute < 60 ∧ dt.second < 60 := by
    simpa [PyDateTime.valid, Bool.and_eq_true, decide_eq_true_eq, and_assoc] using h
  obtain ⟨hy1, hy2, hm1, hm2, hd1, hd2, hh, hn, hs⟩ := hb
  have hdata : (isoformat dt).data =
      [digitChar (dt.year / 1000), digitChar (dt.year / 100 % 10),
       digitChar (dt.year / 10 % 10), digitChar (dt.year % 10), '-',
       digitChar (dt.month / 10), digitChar (dt.month % 10), '-',
       digitChar (dt.day / 10), digitChar (dt.day % 10), 'T',
       digitChar (dt.hour / 10), digitChar (dt.hour % 10), ':',
       digitChar (dt.minute / 10), digitChar (dt.minute % 10), ':',
       digitChar (dt.second / 10), digitChar (dt.second % 10)] := rfl
  have hd31 : dt.day ≤ 31 := le_trans hd2 (daysInMonth_le dt.year dt.month)
  unfold fromisoformat
  rw [hdata]
  simp only [if_pos (by exact ⟨rfl, rfl, rfl, rfl⟩ : ('-' = '-' ∧ '-' = '-' ∧
    ':' = ':' ∧ ':' = ':')), parse4_digits hy2, parse2_digits (by omega : dt.month < 100),
    parse2_digits (by omega : dt.day < 100), parse2_digits (by omega : dt.hour < 100),
    parse2_digits (by omega : dt.minute < 100), parse2_digits (by omega : dt.second < 100),
    bind, Option.some_bind]
  unfold mkDateTime
  simp only [h, if_true, and_self]

/-- A JSON array field is present and long enough for `n` loop iterations. -/
def fieldOk {α : Type} (f : Option (List α)) (n : Nat) : Prop :=
  ∃ l, f = some l ∧ n ≤ l.length

/-- The hypotheses under which the `async_get_daily_forecast` loop raises no
exception: every timestamp parses, every array the loop indexes is present
and at least as long as `time`, and every present sunrise/sunset string
parses. -/
def DailyJsonComplete (d : DailyJson) : Prop :=
  (∀ s ∈ d.time, (fromisoformat s).isSome = true) ∧
  fieldOk d.temperature_2m_max d.time.length ∧
  fieldOk d.temperature_2m_min d.time.length ∧
  fieldOk d.precipitation_sum d.time.length ∧
  fieldOk d.weather_code d.time.length ∧
  fieldOk d.wind_speed_10m_max d.time.length ∧
  fieldOk d.wind_gusts_10m_max d.time.length ∧
  fieldOk d.wind_direction_10m_dominant d.time.length ∧
  fieldOk d.sunrise d.time.length ∧
  fieldOk d.sunset d.time.length ∧
  fieldOk d.sunshine_duration d.time.length ∧
  fieldOk d.daylight_duration d.time.length ∧
  fieldOk d.uv_index_max d.time.length ∧
  fieldOk d.rain_sum d.time.length ∧
  fieldOk d.showers_sum d.time.length ∧
  fieldOk d.snowfall_sum d.time.length ∧
  fieldOk d.precipitation_hours d.time.length ∧
  (∀ os ∈ d.sunrise.getD [], ∀ s, os = some s → (fromisoformat s).isSome = true) ∧
  (∀ os ∈ d.sunset.getD [], ∀ s, os = some s → (fromisoformat s).isSome = true)

/-- The parsed value of a timestamp known to parse (junk default). -/
def parseD (s : String) : PyDateTime :=
  (fromisoformat s).getD ⟨1, 1, 1, 0, 0, 0⟩

/-- The `fromisoformat`/`isoformat` normalization a timestamp undergoes on
its way into a daily record. -/
def normTs (s : String) : String := isoformat (parseD s)

/-- The total counterpart of `dailyRecordAt` under the completeness
hypotheses: the record the loop appends at index `i`. -/
def dailyRecordPure (d : DailyJson) (i : Nat) : DailyRecord :=
  { datetime := normTs (d.time.getD i "")
    temperature := (d.temperature_2m_max.getD []).getD i none
    templow := (d.temperature_2m_min.getD []).getD i none
    precipitation_sum := (d.precipitation_sum.getD []).getD i none
    precipitation := (d.precipitation_sum.getD []).getD i none
    precipitation_probability := none
    condition := map_weather_code ((d.weather_code.getD [none]).getD i none)
    wind_speed := (d.wind_speed_10m_max.getD [none]).getD i none
    wind_gust_speed := (d.wind_gusts_10m_max.getD [none]).getD i none
    wind_bearing := (d.wind_direction_10m_dominant.getD [none]).getD i none
    sunrise := ((d.sunrise.getD [none]).getD i none).bind fromisoformat
    sunset := ((d.sunset.getD [none]).getD i none).bind fromisoformat
    sunshine_duration := (d.sunshine_duration.getD [none]).getD i none
    daylight_duration := (d.daylight_duration.getD [none]).getD i none
    uv_index := (d.uv_index_max.getD [none]).getD i none
    rain_sum := (d.rain_sum.getD [none]).getD i none
    showers_sum := (d.showers_sum.getD [none]).getD i none
    snowfall_sum := (d.snowfall_sum.getD [none]).getD i none
    precipitation_hours := (d.precipitation_hours.getD [none]).getD i none }

theorem reqIdx_getD {α : Type} {f : Option (List α)} {n : Nat} (hf : fieldOk f n)
    {i : Nat} (hi : i < n) (d0 : α) :
    reqIdx f i = .ok ((f.getD []).getD i d0) := by
  obtain ⟨l, rfl, hlen⟩ := hf
  have h : i < l.length := lt_of_lt_of_le hi hlen
  have hg : l[i]? = some l[i] := List.getElem?_eq_getElem h
  simp [reqIdx, hg, List.getD_eq_getElem?_getD]

theorem optIdx_getD {α : Type} {f : Option (List (Option α))} {n : Nat}
    (hf : fieldOk f n) {i : Nat} (hi : i < n) :
    optIdx f i = .ok ((f.getD [none]).getD i none) := by
  obtain ⟨l, rfl, hlen⟩ := hf
  have h : i < l.length := lt_of_lt_of_le hi hlen
  have hg : l[i]? = some l[i] := List.getElem?_eq_getElem h
  simp [optIdx, hg, List.getD_eq_getElem?_getD]

theorem parseOptIso_getD {f : Option (List (Option String))} {n : Nat}
    (hf : fieldOk f n) {i : Nat} (hi : i < n)
    (hp : ∀ os ∈ f.getD [], ∀ s, os = some s → (fromisoformat s).isSome = true) :
    parseOptIso ((f.getD [none]).getD i none) =
      .ok (((f.getD [none]).getD i none).bind fromisoformat) := by
  obtain ⟨l, rfl, hlen⟩ := hf
  have h : i < l.length := lt_of_lt_of_le hi hlen
  have hget : l.getD i none = l.get ⟨i, h⟩ := by
    rw [List.getD_eq_getElem?_getD, List.getElem?_eq_getElem h]
    rfl
  simp only [Option.getD_some]
  cases hv : l.getD i none with
  | none => simp [parseOptIso, hv, pure, Except.pure]
  | some str =>
    have hmem : l.getD i none ∈ l := by
      rw [hget]
      exact List.get_mem l i h
    rw [hv] at hmem
    obtain ⟨dt, hdt⟩ := Option.isSome_iff_exists.mp (hp _ hmem str rfl)
    simp [parseOptIso, hv, hdt, pure, Except.pure]

/-- Under the completeness hypotheses, iteration `i` of the loop raises
nothing and appends exactly `dailyRecordPure d i`. -/
theorem dailyRecordAt_ok (d : DailyJson) (hc : DailyJsonComplete d) (i : Nat)
    (hi : i < d.time.length) :
    dailyRecordAt d i = .ok (dailyRecordPure d i) := by
  obtain ⟨htime, h1, h2, h3, h4, h5, h6, h7, h8, h9, h10, h11, h12, h13, h14, h15,
    h16, hsr, hss⟩ := hc
  have hts : d.time.get? i = some (d.time.get ⟨i, hi⟩) := List.get?_eq_get hi
  have htsD : d.time.getD i "" = d.time.get ⟨i, hi⟩ := by
    rw [List.getD_eq_getElem?_getD, List.getElem?_eq_getElem hi]
    rfl
  obtain ⟨dt0, hdt0⟩ :=
    Option.isSome_iff_exists.mp (htime _ (List.get_mem d.time i hi))
  unfold dailyRecordAt dailyRecordPure
  simp only [hts, hdt0, htsD, reqIdx_getD h1 hi none, reqIdx_getD h2 hi none,
    reqIdx_getD h3 hi none, optIdx_getD h4 hi, optIdx_getD h5 hi, optIdx_getD h6 hi,
    optIdx_getD h7 hi, optIdx_getD h8 hi, optIdx_getD h9 hi, optIdx_getD h10 hi,
    optIdx_getD h11 hi, optIdx_getD h12 hi, optIdx_getD h13 hi, optIdx_getD h14 hi,
    optIdx_getD h15 hi, optIdx_getD h16 hi, parseOptIso_getD h8 hi hsr,
    parseOptIso_getD h9 hi hss, bind, Except.bind, pure, Except.pure, normTs, parseD,
    Option.getD_some]

theorem mapM_ok_of_forall {α : Type} (f : Nat → Except PyExc α) (g : Nat → α) :
    ∀ l : List Nat, (∀ i ∈ l, f i = .ok (g i)) → l.mapM f = .ok (l.map g) := by
  intro l
  induction l with
  | nil => intro _; rfl
  | cons a t ih =>
    intro h
    rw [List.mapM_cons, h a (by simp), ih fun i hi => h i (by simp [hi])]
    rfl

/-- C6 (amended).  Building the daily forecast from a complete `daily`
object with `N` entries in its `time` array yields exactly `N` records in
input order; each record's timestamp is the ISO-8601 *normalization*
`isoformat(fromisoformat(t))` of the corresponding input entry — identical
to the input only when the entry is already in canonical
`YYYY-MM-DDTHH:MM:SS` form — and when the parsed input timestamps are
strictly ascending, the records are in strictly ascending timestamp
order. -/
theorem async_get_daily_forecast_spec (d : DailyJson) (hc : DailyJsonComplete d) :
    ∃ recs, async_get_daily_forecast d = .ok recs ∧
      recs.length = d.time.length ∧
      recs.map (fun r => r.datetime) = d.time.map normTs ∧
      (List.Chain' dtLt (d.time.map parseD) →
        List.Chain' (fun a b => ∃ x y, fromisoformat a.datetime = some x ∧
          fromisoformat b.datetime = some y ∧ dtLt x y) recs) := by
  have hrecs : async_get_daily_forecast d =
      .ok ((List.range d.time.length).map (dailyRecordPure d)) := by
    unfold async_get_daily_forecast
    rw [mapM_ok_of_forall (dailyRecordAt d) (dailyRecordPure d)
      (List.range d.time.length)
      fun i hi => dailyRecordAt_ok d hc i (List.mem_range.mp hi)]
  have hdtm : ∀ i (h : i < d.time.length),
      (dailyRecordPure d i).datetime = normTs (d.time.get ⟨i, h⟩) := by
    intro i h
    unfold dailyRecordPure
    rw [show d.time.getD i "" = d.time.get ⟨i, h⟩ by
      rw [List.getD_eq_getElem?_getD, List.getElem?_eq_getElem h]; rfl]
  refine ⟨(List.range d.time.length).map (dailyRecordPure d), hrecs, by simp, ?_, ?_⟩
  · apply List.ext_get (by simp)
    intro n hn1 hn2
    simp only [List.get_map, List.get_range]
    exact hdtm n (by simpa using hn2)
  · intro hasc
    rw [List.chain'_iff_get]
    intro i hlt
    simp only [List.length_map, List.length_range] at hlt
    have hi1 : i < d.time.length := by omega
    have hi2 : i + 1 < d.time.length := by omega
    have hget : ∀ j (hj : j < d.time.length),
        ((List.range d.time.length).map (dailyRecordPure d)).get
          ⟨j, by simpa using hj⟩ = dailyRecordPure d j := by
      intro j hj
      simp [List.get_map, List.get_range]
    have hparse : ∀ j (hj : j < d.time.length),
        fromisoformat ((dailyRecordPure d j).datetime) =
          some (parseD (d.time.get ⟨j, hj⟩)) := by
      intro j hj
      rw [hdtm j hj]
      unfold normTs
      obtain ⟨dt, hdt⟩ := Option.isSome_iff_exists.mp
        (hc.1 _ (List.get_mem d.time j hj))
      have : parseD (d.time.get ⟨j, hj⟩) = dt := by
        unfold parseD
        rw [hdt]
        rfl
      rw [this]
      exact fromisoformat_isoformat (fromisoformat_valid hdt)
    have hchain := List.chain'_iff_get.mp hasc i (by simpa using hlt)
    simp only [List.get_map] at hchain
    refine ⟨parseD (d.time.get ⟨i, hi1⟩), parseD (d.time.get ⟨i + 1, hi2⟩), ?_, ?_, ?_⟩
    · rw [hget i hi1]
      exact hparse i hi1
    · rw [hget (i + 1) hi2]
      exact hparse (i + 1) hi2
    · exact hchain

/-- A one-entry daily object in the shape Open-Meteo actually returns
(`time` entries are date-only strings). -/
def sampleDailyJson : DailyJson :=
  { time := ["2026-01-15"]
    temperature_2m_max := some [some 5]
    temperature_2m_min := some [some (-3)]
    precipitation_sum := some [some 0]
    weather_code := some [some 3]
    wind_speed_10m_max := some [some 20]
    wind_gusts_10m_max := some [some 40]
    wind_direction_10m_dominant := some [some 180]
    sunrise := some [some "2026-01-15T08:02"]
    sunset := some [some "2026-01-15T17:10"]
    sunshine_duration := some [some 200]
    daylight_duration := some [some 400]
    uv_index_max := some [some 2]
    rain_sum := some [some 0]
    showers_sum := some [none]
    snowfall_sum := some [some 1]
    precipitation_hours := some [some 0] }

/-- C6 (counterexample to "preserved verbatim").  Feeding a daily object
whose single `time` entry is the date-only string `"2026-01-15"` — the form
the upstream daily API returns — yields one record whose timestamp is the
normalized `"2026-01-15T00:00:00"`, which differs from the input string. -/
theorem daily_forecast_timestamp_not_verbatim :
    (async_get_daily_forecast sampleDailyJson).map
        (fun recs => recs.map fun r => r.datetime) = .ok ["2026-01-15T00:00:00"] ∧
      sampleDailyJson.time = ["2026-01-15"] ∧
      ("2026-01-15T00:00:00" : String) ≠ "2026-01-15" := by
  refine ⟨by rfl, rfl, by decide⟩

theorem async_get_daily_forecast_spec_witness :
    DailyJsonComplete sampleDailyJson ∧
    ∃ recs, async_get_daily_forecast sampleDailyJson = .ok recs ∧
      recs.length = sampleDailyJson.time.length ∧
      recs.map (fun r => r.datetime) = sampleDailyJson.time.map normTs ∧
      (List.Chain' dtLt (sampleDailyJson.time.map parseD) →
        List.Chain' (fun a b => ∃ x y, fromisoformat a.datetime = some x ∧
          fromisoformat b.datetime = some y ∧ dtLt x y) recs) :=
  have hcomp : DailyJsonComplete sampleDailyJson :=
    ⟨by decide, ⟨_, rfl, by decide⟩, ⟨_, rfl, by decide⟩, ⟨_, rfl, by decide⟩,
      ⟨_, rfl, by decide⟩, ⟨_, rfl, by decide⟩, ⟨_, rfl, by decide⟩,
      ⟨_, rfl, by decide⟩, ⟨_, rfl, by decide⟩, ⟨_, rfl, by decide⟩,
      ⟨_, rfl, by decide⟩, ⟨_, rfl, by decide⟩, ⟨_, rfl, by decide⟩,
      ⟨_, rfl, by decide⟩, ⟨_, rfl, by decide⟩, ⟨_, rfl, by decide⟩,
      ⟨_, rfl, by decide⟩, by decide, by decide⟩
  ⟨hcomp, async_get_daily_forecast_spec sampleDailyJson hcomp⟩

theorem radians_lt_of_lt {x y : ℝ} (h : x < y) : radians x < radians y := by
  unfold radians
  nlinarith [mul_lt_mul_of_pos_right h
    (show (0 : ℝ) < Real.pi / 180 by positivity)]

theorem radians_sub (a b : ℝ) : radians a - radians b = radians (a - b) := by
  unfold radians
  ring

theorem radians_half (a : ℝ) : radians a / 2 = radians (a / 2) := by
  unfold radians
  ring

theorem radians_eq_zero_iff {x : ℝ} : radians x = 0 ↔ x = 0 := by
  unfold radians
  constructor
  · intro h
    field_simp [Real.pi_ne_zero] at h
    exact (mul_eq_zero.mp h).resolve_right Real.pi_ne_zero
  · intro h
    rw [h]
    ring

theorem cos_radians_pos {x : ℝ} (hl : -90 < x) (hu : x < 90) :
    0 < Real.cos (radians x) := by
  apply Real.cos_pos_of_mem_Ioo
  constructor
  · rw [show -(Real.pi / 2) = radians (-90) by unfold radians; ring]
    exact radians_lt_of_lt hl
  · rw [show Real.pi / 2 = radians 90 by unfold radians; ring]
    exact radians_lt_of_lt hu

theorem sin_radians_ne_zero {x : ℝ} (h0 : x ≠ 0) (hl : -180 < x) (hu : x < 180) :
    Real.sin (radians x) ≠ 0 := by
  have hlb : -Real.pi < radians x := by
    rw [show -Real.pi = radians (-180) by unfold radians; ring]
    exact radians_lt_of_lt hl
  have hub : radians x < Real.pi := by
    rw [show Real.pi = radians 180 by unfold radians; ring]
    exact radians_lt_of_lt hu
  intro hs
  exact h0 (radians_eq_zero_iff.mp ((Real.sin_eq_zero_iff_of_lt_of_lt hlb hub).mp hs))

/-- The haversine distance from a point to itself is exactly 0. -/
theorem haversine_self (lat lon : ℝ) : haversine lat lon lat lon = 0 := by
  unfold haversine
  simp

/-- The haversine distance between two distinct points with in-range
coordinates is strictly positive. -/
theorem haversine_pos {lat1 lon1 lat2 lon2 : ℝ}
    (h1a : -90 < lat1) (h1b : lat1 < 90) (h2a : -90 < lat2) (h2b : lat2 < 90)
    (h3a : -360 < lon2 - lon1) (h3b : lon2 - lon1 < 360)
    (hne : lat1 ≠ lat2 ∨ lon1 ≠ lon2) :
    0 < haversine lat1 lon1 lat2 lon2 := by
  have hc1 := cos_radians_pos h1a h1b
  have hc2 := cos_radians_pos h2a h2b
  unfold haversine
  rw [radians_sub, radians_sub, radians_half, radians_half]
  have hterm2 : 0 ≤ Real.cos (radians lat1) * Real.cos (radians lat2) *
      Real.sin (radians ((lon2 - lon1) / 2)) ^ 2 :=
    mul_nonneg (mul_nonneg hc1.le hc2.le) (sq_nonneg _)
  have hapos : 0 < Real.sin (radians ((lat2 - lat1) / 2)) ^ 2 +
      Real.cos (radians lat1) * Real.cos (radians lat2) *
        Real.sin (radians ((lon2 - lon1) / 2)) ^ 2 := by
    rcases hne with hlat | hlon
    · have hs := sin_radians_ne_zero (x := (lat2 - lat1) / 2)
        (by intro h; exact hlat (by linarith)) (by linarith) (by linarith)
      have h1 := pow_two_pos_of_ne_zero hs
      linarith
    · have hs := sin_radians_ne_zero (x := (lon2 - lon1) / 2)
        (by intro h; exact hlon (by linarith)) (by linarith) (by linarith)
      have h2 := mul_pos (mul_pos hc1 hc2) (pow_two_pos_of_ne_zero hs)
      have h1 := sq_nonneg (Real.sin (radians ((lat2 - lat1) / 2)))
      linarith
  have harc := Real.arcsin_pos.mpr (Real.sqrt_pos.mpr hapos)
  nlinarith [harc]

/-- `stepNearest` on the initial `min_distance = inf` state always takes
the new massif. -/
theorem stepNearest_none (qlat qlon : ℚ) (a b : Option String)
    (m : String × String × ℚ × ℚ) :
    stepNearest qlat qlon ⟨none, a, b⟩ m =
      ⟨some (haversine (qlat : ℝ) (qlon : ℝ) (m.2.2.1 : ℝ) (m.2.2.2 : ℝ)),
        some m.1, some m.2.1⟩ := by
  simp [stepNearest]

theorem stepNearest_some_lt (qlat qlon : ℚ) {v : ℝ} (a b : Option String)
    (m : String × String × ℚ × ℚ)
    (h : haversine (qlat : ℝ) (qlon : ℝ) (m.2.2.1 : ℝ) (m.2.2.2 : ℝ) < v) :
    stepNearest qlat qlon ⟨some v, a, b⟩ m =
      ⟨some (haversine (qlat : ℝ) (qlon : ℝ) (m.2.2.1 : ℝ) (m.2.2.2 : ℝ)),
        some m.1, some m.2.1⟩ := by
  simp [stepNearest, h]

theorem stepNearest_some_ge (qlat qlon : ℚ) {v : ℝ} (a b : Option String)
    (m : String × String × ℚ × ℚ)
    (h : ¬haversine (qlat : ℝ) (qlon : ℝ) (m.2.2.1 : ℝ) (m.2.2.2 : ℝ) < v) :
    stepNearest qlat qlon ⟨some v, a, b⟩ m = ⟨some v, a, b⟩ := by
  simp [stepNearest, h]

/-- Once the loop state holds distance 0, no later massif (all at
nonnegative distance) replaces it. -/
theorem foldl_stepNearest_stay (qlat qlon : ℚ) (a b : Option String) :
    ∀ L : List (String × String × ℚ × ℚ),
      (∀ u ∈ L, ¬haversine (qlat : ℝ) (qlon : ℝ) (u.2.2.1 : ℝ) (u.2.2.2 : ℝ) < 0) →
      L.foldl (stepNearest qlat qlon) ⟨some 0, a, b⟩ = ⟨some 0, a, b⟩ := by
  intro L
  induction L with
  | nil => intro _; rfl
  | cons c rest ih =>
    intro h
    rw [List.foldl_cons, stepNearest_some_ge qlat qlon a b c (h c (by simp))]
    exact ih fun u hu => h u (by simp [hu])

/-- The argmin loop: if the target `t` is in the list at distance 0 and
every other listed massif is strictly farther, the loop ends on `t` with
recorded minimum 0, from the initial state or from any state still holding
a positive distance. -/
theorem foldl_stepNearest_found (qlat qlon : ℚ) (t : String × String × ℚ × ℚ)
    (h0 : haversine (qlat : ℝ) (qlon : ℝ) (t.2.2.1 : ℝ) (t.2.2.2 : ℝ) = 0) :
    ∀ (L : List (String × String × ℚ × ℚ)) (st : NearestState),
      t ∈ L →
      (∀ u ∈ L, u ≠ t →
        0 < haversine (qlat : ℝ) (qlon : ℝ) (u.2.2.1 : ℝ) (u.2.2.2 : ℝ)) →
      (st = ⟨none, none, none⟩ ∨ ∃ v a b, st = ⟨some v, a, b⟩ ∧ 0 < v) →
      L.foldl (stepNearest qlat qlon) st = ⟨some 0, some t.1, some t.2.1⟩ := by
  intro L
  induction L with
  | nil =>
    intro st ht
    exact absurd ht (List.not_mem_nil t)
  | cons c rest ih =>
    intro st ht hpos hst
    have hnn : ∀ u ∈ rest,
        ¬haversine (qlat : ℝ) (qlon : ℝ) (u.2.2.1 : ℝ) (u.2.2.2 : ℝ) < 0 := by
      intro u hu
      by_cases hut : u = t
      · rw [hut, h0]
        exact lt_irrefl 0
      · exact not_lt_of_gt (hpos u (by simp [hu]) hut)
    by_cases hct : c = t
    · subst hct
      have hstep : stepNearest qlat qlon st c = ⟨some 0, some c.1, some c.2.1⟩ := by
        rcases hst with rfl | ⟨v, a, b, rfl, hv⟩
        · rw [stepNearest_none, h0]
        · rw [stepNearest_some_lt qlat qlon a b c (by rw [h0]; exact hv), h0]
      rw [List.foldl_cons, hstep]
      exact foldl_stepNearest_stay qlat qlon _ _ rest hnn
    · have hcd : 0 < haversine (qlat : ℝ) (qlon : ℝ) (c.2.2.1 : ℝ) (c.2.2.2 : ℝ) :=
        hpos c (by simp) hct
      have htr : t ∈ rest := by
        rcases List.mem_cons.mp ht with h | h
        · exact absurd h.symm hct
        · exact h
      have hinv : stepNearest qlat qlon st c = ⟨none, none, none⟩ ∨
          ∃ v a b, stepNearest qlat qlon st c = ⟨some v, a, b⟩ ∧ 0 < v := by
        rcases hst with rfl | ⟨v, a, b, rfl, hv⟩
        · exact Or.inr ⟨_, _, _, stepNearest_none qlat qlon none none c, hcd⟩
        · by_cases hlt : haversine (qlat : ℝ) (qlon : ℝ) (c.2.2.1 : ℝ) (c.2.2.2 : ℝ) < v
          · exact Or.inr ⟨_, _, _, stepNearest_some_lt qlat qlon a b c hlt, hcd⟩
          · exact Or.inr ⟨v, a, b, stepNearest_some_ge qlat qlon a b c hlt, hv⟩
      rw [List.foldl_cons]
      exact ih (stepNearest qlat qlon st c) htr
        (fun u hu hut => hpos u (by simp [hu]) hut) hinv

/-- The catalog coordinates scaled by ten (all of them are exact tenths of
a degree), used to decide coordinate facts in `ℤ`. -/
def MASSIFS10 : List (Int × Int) :=
  [(463, 67), (459, 65), (459, 69), (457, 62), (457, 66), (455, 69), (454, 58),
   (453, 60), (452, 66), (454, 68), (452, 69), (450, 55), (450, 63), (451, 61),
   (451, 65), (449, 64), (447, 68), (447, 59), (447, 62), (445, 65), (444, 67),
   (441, 74), (439, 72), (430, -10), (429, -4), (428, 1), (428, 4), (428, 6),
   (428, 10), (426, 15), (426, 19), (425, 20), (425, 23), (426, 16), (430, -12),
   (429, -5), (429, 0), (428, 7), (427, 13), (422, 90)]

set_option maxHeartbeats 2000000 in
theorem massifs_coords :
    MASSIFS.map (fun m => (m.2.2.1, m.2.2.2)) =
      MASSIFS10.map (fun p => ((p.1 : ℚ) / 10, (p.2 : ℚ) / 10)) := by
  simp only [MASSIFS, MASSIFS10, List.map]
  norm_num

theorem massifs10_pairwise :
    MASSIFS10.Pairwise (fun p q => p.1 ≠ q.1 ∨ p.2 ≠ q.2) := by
  decide

theorem massifs10_bounds :
    ∀ p ∈ MASSIFS10, -900 < p.1 ∧ p.1 < 900 ∧ -1800 < p.2 ∧ p.2 < 1800 := by
  decide

/-- No two catalog massifs share their center coordinate. -/
theorem massifs_pairwise :
    MASSIFS.Pairwise (fun a b => a.2.2.1 ≠ b.2.2.1 ∨ a.2.2.2 ≠ b.2.2.2) := by
  have h1 : (MASSIFS10.map (fun p => ((p.1 : ℚ) / 10, (p.2 : ℚ) / 10))).Pairwise
      (fun a b => a.1 ≠ b.1 ∨ a.2 ≠ b.2) := by
    rw [List.pairwise_map]
    refine massifs10_pairwise.imp ?_
    intro p q hpq
    rcases hpq with h | h
    · refine Or.inl fun hEq => h ?_
      field_simp at hEq
      exact_mod_cast hEq
    · refine Or.inr fun hEq => h ?_
      field_simp at hEq
      exact_mod_cast hEq
  rw [← massifs_coords, List.pairwise_map] at h1
  exact h1

/-- Every catalog coordinate is strictly inside the valid range. -/
theorem massifs_bounds :
    ∀ u ∈ MASSIFS, -90 < u.2.2.1 ∧ u.2.2.1 < 90 ∧ -180 < u.2.2.2 ∧ u.2.2.2 < 180 := by
  intro u hu
  have hmem : (u.2.2.1, u.2.2.2) ∈
      MASSIFS10.map (fun p => ((p.1 : ℚ) / 10, (p.2 : ℚ) / 10)) := by
    rw [← massifs_coords]
    exact List.mem_map_of_mem _ hu
  obtain ⟨p, hp, hco⟩ := List.mem_map.mp hmem
  obtain ⟨hco1, hco2⟩ := Prod.mk.injEq .. ▸ hco
  obtain ⟨b1, b2, b3, b4⟩ := massifs10_bounds p hp
  refine ⟨?_, ?_, ?_, ?_⟩
  · rw [← hco1, lt_div_iff (by norm_num : (0 : ℚ) < 10)]
    have hb : ((-900 : ℤ) : ℚ) < (p.1 : ℚ) := by exact_mod_cast b1
    push_cast at hb
    linarith
  · rw [← hco1, div_lt_iff (by norm_num : (0 : ℚ) < 10)]
    have hb : ((p.1 : ℤ) : ℚ) < ((900 : ℤ) : ℚ) := by exact_mod_cast b2
    push_cast at hb
    linarith
  · rw [← hco2, lt_div_iff (by norm_num : (0 : ℚ) < 10)]
    have hb : ((-1800 : ℤ) : ℚ) < (p.2 : ℚ) := by exact_mod_cast b3
    push_cast at hb
    linarith
  · rw [← hco2, div_lt_iff (by norm_num : (0 : ℚ) < 10)]
    have hb : ((p.2 : ℤ) : ℚ) < ((1800 : ℤ) : ℚ) := by exact_mod_cast b4
    push_cast at hb
    linarith

/-- C8.  For a query coordinate exactly equal to a catalog massif's center
point, `_find_nearest_massif` returns that massif, and the recorded
`min_distance` of the loop is exactly 0 (the real-number rendering of
"distance ≈ 0"). -/
theorem find_nearest_at_center (m : String × String × ℚ × ℚ) (hm : m ∈ MASSIFS) :
    find_nearest_state m.2.2.1 m.2.2.2 = ⟨some 0, some m.1, some m.2.1⟩ ∧
      find_nearest_massif m.2.2.1 m.2.2.2 = (some m.1, some m.2.1) := by
  have hforall := massifs_pairwise.forall (by
    intro a b h
    rcases h with h | h
    · exact Or.inl h.symm
    · exact Or.inr h.symm)
  obtain ⟨hm1, hm2, hm3, hm4⟩ := massifs_bounds m hm
  have hstate : find_nearest_state m.2.2.1 m.2.2.2 = ⟨some 0, some m.1, some m.2.1⟩ := by
    unfold find_nearest_state
    refine foldl_stepNearest_found m.2.2.1 m.2.2.2 m (haversine_self _ _) MASSIFS
      ⟨none, none, none⟩ hm ?_ (Or.inl rfl)
    intro u hu hut
    obtain ⟨hu1, hu2, hu3, hu4⟩ := massifs_bounds u hu
    have hco := hforall hm hu fun hEq => hut (hEq ▸ rfl)
    refine haversine_pos ?_ ?_ ?_ ?_ ?_ ?_ ?_
    · exact_mod_cast hm1
    · exact_mod_cast hm2
    · exact_mod_cast hu1
    · exact_mod_cast hu2
    · have h1 : (-180 : ℝ) < (u.2.2.2 : ℚ) := by exact_mod_cast hu3
      have h2 : ((m.2.2.2 : ℚ) : ℝ) < 180 := by exact_mod_cast hm4
      linarith
    · have h1 : ((u.2.2.2 : ℚ) : ℝ) < 180 := by exact_mod_cast hu4
      have h2 : (-180 : ℝ) < (m.2.2.2 : ℚ) := by exact_mod_cast hm3
      linarith
    · rcases hco with h | h
      · exact Or.inl fun hEq => h (by exact_mod_cast hEq)
      · exact Or.inr fun hEq => h (by exact_mod_cast hEq)
  refine ⟨hstate, ?_⟩
  unfold find_nearest_massif
  rw [hstate]

theorem find_nearest_at_center_witness :
    ("MONT-BLANC", "Mont-Blanc", (45.9 : ℚ), (6.9 : ℚ)) ∈ MASSIFS ∧
      find_nearest_massif 45.9 6.9 = (some "MONT-BLANC", some "Mont-Blanc") :=
  have hm : ("MONT-BLANC", "Mont-Blanc", (45.9 : ℚ), (6.9 : ℚ)) ∈ MASSIFS := by
    unfold MASSIFS
    exact List.mem_cons_of_mem _ (List.mem_cons_of_mem _ (List.mem_cons_self _ _))
  ⟨hm, (find_nearest_at_center _ hm).2⟩

end Serac
